/-
Verification of the spatial proximity engine of the map-v2 repository.

The development shallowly embeds the relevant parts of the source:
  * `closestPointOnSegment`           (src/src/MyGeoJsonMap.jsx 392-405, src/unnamed/part_000 174-187)
  * the per-tick line scan            (src/src/MyGeoJsonMap.jsx 83-130, distance-along-line 97-105)
  * the inlined KDBush spatial index  (src/src/MyGeoJsonMap.jsx 426-492)
  * `checkPointInGeoJSON`             (src/src/MyGeoJsonMap.jsx 700-851)
  * `calculateDistance` (haversine)   (src/src/TeraaMap.jsx 64-79)

JS numbers are modelled as exact rationals (ℚ) except for the haversine
distance, which is modelled over ℝ with real trigonometric functions.
External libraries (google.maps.geometry.spherical, Turf.js) are modelled as
oracle parameters: the resolver's control flow is embedded faithfully, the
library calls appear as explicit function arguments.
-/
import Mathlib

set_option maxRecDepth 2000

namespace MapV2

/-- Model of a google.maps.LatLng value: a latitude/longitude pair of exact
rationals standing for JS numbers. -/
structure LatLng where
  lat : ℚ
  lng : ℚ
deriving DecidableEq, Repr

/-- Shallow embedding of `closestPointOnSegment(p, a, b, google)`
(src/src/MyGeoJsonMap.jsx lines 392-405; the identical function appears in
src/unnamed/part_000 lines 174-187).  The `google` parameter is only used to
construct the returned LatLng and needs no model. -/
def closestPointOnSegment (p a b : LatLng) : LatLng :=
  let dx := b.lng - a.lng
  let dy := b.lat - a.lat
  let lengthSquared := dx * dx + dy * dy
  if lengthSquared = 0 then a
  else
    let t := ((p.lng - a.lng) * dx + (p.lat - a.lat) * dy) / lengthSquared
    if t < 0 then a
    else if t > 1 then b
    else ⟨a.lat + t * dy, a.lng + t * dx⟩

/-- The planar projection parameter `t` computed by `closestPointOnSegment`. -/
def projParam (p a b : LatLng) : ℚ :=
  ((p.lng - a.lng) * (b.lng - a.lng) + (p.lat - a.lat) * (b.lat - a.lat)) /
    ((b.lng - a.lng) * (b.lng - a.lng) + (b.lat - a.lat) * (b.lat - a.lat))

lemma lengthSquared_eq_zero_iff (a b : LatLng) :
    (b.lng - a.lng) * (b.lng - a.lng) + (b.lat - a.lat) * (b.lat - a.lat) = 0 ↔ b = a := by
  constructor
  · intro h
    have hx : (b.lng - a.lng) * (b.lng - a.lng) = 0 ∧ (b.lat - a.lat) * (b.lat - a.lat) = 0 := by
      constructor <;> nlinarith [mul_self_nonneg (b.lng - a.lng), mul_self_nonneg (b.lat - a.lat)]
    have h1 : b.lng = a.lng := by
      have := mul_self_eq_zero.mp hx.1; linarith
    have h2 : b.lat = a.lat := by
      have := mul_self_eq_zero.mp hx.2; linarith
    cases a; cases b; simp_all
  · intro h; subst h; ring

/-- Default LatLng used for (unreachable) out-of-range list indexing in the
embedding of the JS loops. -/
def dfltLL : LatLng := ⟨0, 0⟩

/-
Embedding of the per-tick line scan of handleMapLoad
(src/src/MyGeoJsonMap.jsx lines 83-130; the distance-along-line accumulation is
lines 97-105).  `g` models the external library call
google.maps.geometry.spherical.computeDistanceBetween (meters).
-/

/-- One segment test of the scan loop: is the query within 20 meters of the
closest point on segment `i` of `path`?  Mirrors line 88-93 of the source. -/
def segHit (g : LatLng → LatLng → ℚ) (q : LatLng) (path : List LatLng) (i : Nat) : Prop :=
  g q (closestPointOnSegment q (path.getD i dfltLL) (path.getD (i + 1) dfltLL)) < 20

instance (g q path i) : Decidable (segHit g q path i) := by
  unfold segHit; infer_instance

/-- The loop `for (let i = 0; i < path.length - 1; i++) { if (dist < 20) ... }`:
index of the first segment within 20 m of the query.  The fuel argument bounds
the iteration count; `firstHitIdx` supplies fuel `path.length`, enough for the
whole loop, so the function equals the JS loop. -/
def firstHitNat (g : LatLng → LatLng → ℚ) (q : LatLng) (path : List LatLng) :
    Nat → Nat → Option Nat
  | 0, _ => none
  | fuel + 1, i =>
    if i + 1 < path.length then
      if segHit g q path i then some i else firstHitNat g q path fuel (i + 1)
    else none

/-- Index of the first segment of `path` within 20 m of `q` (the segment at
which the scan loop of lines 87-128 stops). -/
def firstHitIdx (g : LatLng → LatLng → ℚ) (q : LatLng) (path : List LatLng) : Option Nat :=
  firstHitNat g q path path.length 0

/-- The `totalDistance` accumulation of lines 97-104: lengths of the completed
segments `0..i-1` plus the distance from vertex `i` to the projection of the
query on segment `i` (meters). -/
def totalDistanceAt (g : LatLng → LatLng → ℚ) (q : LatLng) (path : List LatLng) (i : Nat) : ℚ :=
  ((List.range i).map (fun j => g (path.getD j dfltLL) (path.getD (j + 1) dfltLL))).sum +
    g (path.getD i dfltLL)
      (closestPointOnSegment q (path.getD i dfltLL) (path.getD (i + 1) dfltLL))

/-- The distance-from-start reported by the scan for one LineString path, in
kilometers (`setDistanceFromStart((totalDistance / 1000).toFixed(2))`; the
`toFixed` display formatting is not modelled). `none` when no segment of the
path is within 20 m. -/
def lineScan (g : LatLng → LatLng → ℚ) (q : LatLng) (path : List LatLng) : Option ℚ :=
  (firstHitIdx g q path).map (fun i => totalDistanceAt g q path i / 1000)

/-- Distance from the query to its projection on segment `i` (the quantity
tested against 20 in line 93). -/
def segProjDist (g : LatLng → LatLng → ℚ) (q : LatLng) (path : List LatLng) (i : Nat) : ℚ :=
  g q (closestPointOnSegment q (path.getD i dfltLL) (path.getD (i + 1) dfltLL))

lemma segHit_iff (g : LatLng → LatLng → ℚ) (q : LatLng) (path : List LatLng) (i : Nat) :
    segHit g q path i ↔ segProjDist g q path i < 20 := Iff.rfl

lemma firstHitNat_spec (g : LatLng → LatLng → ℚ) (q : LatLng) (path : List LatLng) :
    ∀ (fuel i0 i : Nat), firstHitNat g q path fuel i0 = some i →
      i0 ≤ i ∧ i + 1 < path.length ∧ segHit g q path i ∧
        ∀ j, i0 ≤ j → j < i → ¬ segHit g q path j := by
  intro fuel
  induction fuel with
  | zero => intro i0 i h; simp [firstHitNat] at h
  | succ f ih =>
    intro i0 i h
    unfold firstHitNat at h
    by_cases hlen : i0 + 1 < path.length
    · rw [if_pos hlen] at h
      by_cases hhit : segHit g q path i0
      · rw [if_pos hhit] at h
        obtain rfl : i0 = i := by injection h
        exact ⟨le_refl _, hlen, hhit, fun j h1 h2 => absurd (lt_of_le_of_lt h1 h2) (lt_irrefl _)⟩
      · rw [if_neg hhit] at h
        obtain ⟨h1, h2, h3, h4⟩ := ih (i0 + 1) i h
        refine ⟨le_trans (Nat.le_succ i0) h1, h2, h3, fun j hj1 hj2 => ?_⟩
        rcases Nat.eq_or_lt_of_le hj1 with rfl | hj1'
        · exact hhit
        · exact h4 j hj1' hj2
    · rw [if_neg hlen] at h
      exact absurd h (by simp)

/-- C7 (amended): the reported distance-along-line corresponds to the FIRST
segment of the path (in path order) whose distance to the query point is below
20 m, not necessarily the segment carrying the globally closest projection; for
that segment i the reported value is the sum of the lengths of segments 0..i-1
plus the distance from segment i's start vertex to the projection of the query
on segment i, divided by 1000 (meters to km). -/
theorem C7_lineScan_firstHit (g : LatLng → LatLng → ℚ) (q : LatLng) (path : List LatLng)
    (i : Nat) (h : firstHitIdx g q path = some i) :
    i + 1 < path.length ∧ segProjDist g q path i < 20 ∧
      (∀ j, j < i → ¬ segProjDist g q path j < 20) ∧
      lineScan g q path = some (totalDistanceAt g q path i / 1000) := by
  obtain ⟨-, h2, h3, h4⟩ := firstHitNat_spec g q path path.length 0 i h
  exact ⟨h2, h3, fun j hj => h4 j (Nat.zero_le j) hj, by simp [lineScan, h]⟩

/-- Query point of the C7 counterexample: near segment 0 of the path but even
nearer to segment 2 (the path doubles back parallel to itself). -/
def cexQ7 : LatLng := ⟨1/10000, 5⟩

/-- Path of the C7 counterexample: A → B eastwards, then a tiny step north at
B → C, then C → D back westwards just above the first segment. -/
def cexPath7 : List LatLng := [⟨0, 0⟩, ⟨0, 10⟩, ⟨3/25000, 10⟩, ⟨3/25000, 0⟩]

/-- Oracle for google.maps.geometry.spherical.computeDistanceBetween in the C7
counterexample (meters), consistent with the geometry of `cexPath7`: the query
is about 11.1 m from segment 0, about 2.2 m from segment 2, and far from
segment 1; the segments are about 1112 km and 13 m long. -/
def cexDist7 (u v : LatLng) : ℚ :=
  if u = cexQ7 ∧ v = ⟨0, 5⟩ then 278/25
  else if u = cexQ7 ∧ v = ⟨1/10000, 10⟩ then 556000
  else if u = cexQ7 ∧ v = ⟨3/25000, 5⟩ then 111/50
  else if u = ⟨0, 0⟩ ∧ v = ⟨0, 5⟩ then 556000
  else if u = ⟨0, 0⟩ ∧ v = ⟨0, 10⟩ then 1112000
  else if u = ⟨0, 10⟩ ∧ v = ⟨3/25000, 10⟩ then 267/20
  else if u = ⟨3/25000, 10⟩ ∧ v = ⟨3/25000, 5⟩ then 556000
  else 0

/-- C7 counterexample: in `cexPath7` the globally closest projection of the
query falls on segment 2 (strictly closer than every other segment), yet the
scan reports the along-line distance of segment 0 — the first segment within
20 m — so the reported value differs from the claim's formula for segment 2.
This refutes C7 as stated. -/
theorem C7_counterexample :
    (∀ j, j < 3 → j ≠ 2 →
        segProjDist cexDist7 cexQ7 cexPath7 2 < segProjDist cexDist7 cexQ7 cexPath7 j) ∧
      lineScan cexDist7 cexQ7 cexPath7 = some 556 ∧
      (556 : ℚ) ≠ totalDistanceAt cexDist7 cexQ7 cexPath7 2 / 1000 := by
  have p0 : cexPath7.getD 0 dfltLL = ⟨0, 0⟩ := rfl
  have p1 : cexPath7.getD 1 dfltLL = ⟨0, 10⟩ := rfl
  have p2 : cexPath7.getD 2 dfltLL = ⟨3/25000, 10⟩ := rfl
  have p3 : cexPath7.getD 3 dfltLL = ⟨3/25000, 0⟩ := rfl
  have hc0 : closestPointOnSegment cexQ7 ⟨0, 0⟩ ⟨0, 10⟩ = ⟨0, 5⟩ := by
    norm_num [closestPointOnSegment, cexQ7]
  have hc1 : closestPointOnSegment cexQ7 ⟨0, 10⟩ ⟨3/25000, 10⟩ = ⟨1/10000, 10⟩ := by
    norm_num [closestPointOnSegment, cexQ7]
  have hc2 : closestPointOnSegment cexQ7 ⟨3/25000, 10⟩ ⟨3/25000, 0⟩ = ⟨3/25000, 5⟩ := by
    norm_num [closestPointOnSegment, cexQ7]
  have e0 : segProjDist cexDist7 cexQ7 cexPath7 0 = 278/25 := by
    unfold segProjDist
    rw [p0, p1, hc0]
    unfold cexDist7
    norm_num [cexQ7, LatLng.mk.injEq]
  have e1 : segProjDist cexDist7 cexQ7 cexPath7 1 = 556000 := by
    unfold segProjDist
    rw [p1, p2, hc1]
    unfold cexDist7
    norm_num [cexQ7, LatLng.mk.injEq]
  have e2 : segProjDist cexDist7 cexQ7 cexPath7 2 = 111/50 := by
    unfold segProjDist
    rw [p2, p3, hc2]
    unfold cexDist7
    norm_num [cexQ7, LatLng.mk.injEq]
  have hhit : segHit cexDist7 cexQ7 cexPath7 0 := by
    rw [segHit_iff, e0]; norm_num
  have hfh : firstHitIdx cexDist7 cexQ7 cexPath7 = some 0 := by
    rw [firstHitIdx, show cexPath7.length = 4 from rfl]
    unfold firstHitNat
    rw [if_pos (by norm_num [cexPath7]), if_pos hhit]
  have htd0 : totalDistanceAt cexDist7 cexQ7 cexPath7 0 / 1000 = 556 := by
    unfold totalDistanceAt
    rw [p0, p1, hc0]
    simp only [List.range_zero, List.map_nil, List.sum_nil]
    unfold cexDist7
    norm_num [cexQ7, LatLng.mk.injEq]
  have htd2 : totalDistanceAt cexDist7 cexQ7 cexPath7 2 / 1000 = 33360267/20000 := by
    unfold totalDistanceAt
    rw [show List.range 2 = [0, 1] from rfl]
    simp only [List.map_cons, List.map_nil, List.sum_cons, List.sum_nil]
    rw [p0, p1, p2, p3, hc2]
    unfold cexDist7
    norm_num [cexQ7, LatLng.mk.injEq]
  refine ⟨?_, ?_, ?_⟩
  · intro j hj hne
    interval_cases j
    · rw [e0, e2]; norm_num
    · rw [e1, e2]; norm_num
    · exact absurd rfl hne
  · rw [lineScan, hfh]
    simp only [Option.map_some']
    rw [htd0]
  · rw [htd2]; norm_num

/-- Query point of the C7 witness (the spec's three-point example). -/
def witQ7 : LatLng := ⟨5, 5⟩

/-- Path of the C7 witness: three points, segment lengths 1 km and 2 km
under the oracle `witDist7`. -/
def witPath7 : List LatLng := [⟨0, 0⟩, ⟨0, 10⟩, ⟨10, 10⟩]

/-- Oracle distances for the C7 witness: the query is 30 m from segment 0
(too far), 10 m from segment 1 (a hit); segment 0 is 1000 m long and the
projection sits 1000 m after segment 1's start (its midpoint). -/
def witDist7 (u v : LatLng) : ℚ :=
  if u = witQ7 ∧ v = ⟨0, 5⟩ then 30
  else if u = witQ7 ∧ v = ⟨5, 10⟩ then 10
  else if u = ⟨0, 0⟩ ∧ v = ⟨0, 10⟩ then 1000
  else if u = ⟨0, 10⟩ ∧ v = ⟨5, 10⟩ then 1000
  else 0

/-- Witness for C7 (amended): on a 3-point path with segment lengths 1 km and
2 km and a query projecting to the midpoint of the second segment (the first
segment being out of range), the reported distance-along-line is 2 km. -/
theorem C7_witness :
    firstHitIdx witDist7 witQ7 witPath7 = some 1 ∧
      lineScan witDist7 witQ7 witPath7 = some 2 := by
  have p0 : witPath7.getD 0 dfltLL = ⟨0, 0⟩ := rfl
  have p1 : witPath7.getD 1 dfltLL = ⟨0, 10⟩ := rfl
  have p2 : witPath7.getD 2 dfltLL = ⟨10, 10⟩ := rfl
  have hc0 : closestPointOnSegment witQ7 ⟨0, 0⟩ ⟨0, 10⟩ = ⟨0, 5⟩ := by
    norm_num [closestPointOnSegment, witQ7]
  have hc1 : closestPointOnSegment witQ7 ⟨0, 10⟩ ⟨10, 10⟩ = ⟨5, 10⟩ := by
    norm_num [closestPointOnSegment, witQ7]
  have hmiss : ¬ segHit witDist7 witQ7 witPath7 0 := by
    rw [segHit_iff]
    have h30 : segProjDist witDist7 witQ7 witPath7 0 = 30 := by
      unfold segProjDist
      rw [p0, p1, hc0]
      unfold witDist7
      norm_num [witQ7, LatLng.mk.injEq]
    rw [h30]; norm_num
  have hhit : segHit witDist7 witQ7 witPath7 1 := by
    rw [segHit_iff]
    have h10 : segProjDist witDist7 witQ7 witPath7 1 = 10 := by
      unfold segProjDist
      rw [p1, p2, hc1]
      unfold witDist7
      norm_num [witQ7, LatLng.mk.injEq]
    rw [h10]; norm_num
  have h : firstHitIdx witDist7 witQ7 witPath7 = some 1 := by
    rw [firstHitIdx, show witPath7.length = 3 from rfl]
    unfold firstHitNat
    rw [if_pos (by norm_num [witPath7]), if_neg hmiss]
    unfold firstHitNat
    rw [if_pos (by norm_num [witPath7]), if_pos hhit]
  refine ⟨h, ?_⟩
  have h2 := (C7_lineScan_firstHit witDist7 witQ7 witPath7 1 h).2.2.2
  have h3 : totalDistanceAt witDist7 witQ7 witPath7 1 / 1000 = 2 := by
    unfold totalDistanceAt
    rw [show List.range 1 = [0] from rfl]
    simp only [List.map_cons, List.map_nil, List.sum_cons, List.sum_nil]
    rw [p0, p1, p2, hc1]
    unfold witDist7
    norm_num [witQ7, LatLng.mk.injEq]
  rw [h2, h3]

/-
Embedding of the inlined KDBush class (src/src/MyGeoJsonMap.jsx lines 426-492).
Points are (x, y) = (longitude, latitude) pairs; `init` stores ids[i] = i and
coords[2i] = x_i, coords[2i+1] = y_i, then partially sorts ids.  The flat
coords array is never mutated, so it is modelled by direct access into the
point list (`coordAt`).  JS out-of-range reads yield NaN (all comparisons
false); the model returns a default value instead — this can only change which
swaps the scans perform, never the multiset of ids, which is the property the
claims are about.  The JS while-loops are modelled with ample fuel. -/

/-- Access `this.coords[2 * id + axis]`. -/
def coordAt (pts : List (ℚ × ℚ)) (id axis : Nat) : ℚ :=
  if axis = 0 then (pts.getD id (0, 0)).1 else (pts.getD id (0, 0)).2

/-- The `swap(i, j)` method (lines 473-477), as a pure list operation; out of
range indices leave the list unchanged (unreachable in the real runs). -/
def lswap {α : Type} (l : List α) (i j : Nat) : List α :=
  match l.get? i, l.get? j with
  | some a, some b => (l.set i b).set j a
  | _, _ => l

lemma set_head_perm {α : Type} (y : α) :
    ∀ (xs : List α) (k : Nat) (b : α), xs.get? k = some b →
      (b :: xs.set k y).Perm (y :: xs) := by
  intro xs
  induction xs with
  | nil => intro k b h; simp at h
  | cons z t ih =>
    intro k b h
    cases k with
    | zero =>
      simp only [List.get?_cons_zero, Option.some_inj] at h
      subst h
      simp only [List.set_cons_zero]
      exact List.Perm.swap y z t
    | succ k =>
      simp only [List.get?_cons_succ] at h
      simp only [List.set_cons_succ]
      have h1 : (b :: z :: t.set k y).Perm (z :: b :: t.set k y) := List.Perm.swap z b _
      have h2 : (z :: b :: t.set k y).Perm (z :: (y :: t)) := List.Perm.cons z (ih k b h)
      have h3 : (z :: y :: t).Perm (y :: z :: t) := List.Perm.swap y z t
      exact h1.trans (h2.trans h3)

lemma set_set_perm {α : Type} :
    ∀ (l : List α) (i j : Nat) (a b : α), l.get? i = some a → l.get? j = some b →
      ((l.set i b).set j a).Perm l := by
  intro l
  induction l with
  | nil => intro i j a b h; simp at h
  | cons x t ih =>
    intro i j a b hi hj
    cases i with
    | zero =>
      simp only [List.get?_cons_zero, Option.some_inj] at hi
      subst hi
      cases j with
      | zero =>
        simp only [List.get?_cons_zero, Option.some_inj] at hj
        subst hj
        simp
      | succ m =>
        simp only [List.get?_cons_succ] at hj
        simp only [List.set_cons_zero, List.set_cons_succ]
        exact set_head_perm x t m b hj
    | succ k =>
      cases j with
      | zero =>
        simp only [List.get?_cons_succ] at hi
        simp only [List.get?_cons_zero, Option.some_inj] at hj
        subst hj
        simp only [List.set_cons_succ, List.set_cons_zero]
        exact set_head_perm x t k a hi
      | succ m =>
        simp only [List.get?_cons_succ] at hi hj
        simp only [List.set_cons_succ]
        exact List.Perm.cons x (ih k m a b hi hj)

lemma lswap_perm {α : Type} (l : List α) (i j : Nat) : (lswap l i j).Perm l := by
  unfold lswap
  split
  · next a b ha hb => exact set_set_perm l i j a b ha hb
  · exact List.Perm.refl l

/-- The scan `while (this.coords[2 * this.ids[i] + axis] < t) i++` of line 463,
with fuel. -/
def scanUp (pts : List (ℚ × ℚ)) (axis : Nat) (t : ℚ) (ids : List Nat) : Nat → Nat → Nat
  | 0, i => i
  | fuel + 1, i =>
    if coordAt pts (ids.getD i 0) axis < t then scanUp pts axis t ids fuel (i + 1) else i

/-- The scan `while (this.coords[2 * this.ids[j] + axis] > t) j--` of line 464,
with fuel. -/
def scanDown (pts : List (ℚ × ℚ)) (axis : Nat) (t : ℚ) (ids : List Nat) : Nat → Nat → Nat
  | 0, j => j
  | fuel + 1, j =>
    if coordAt pts (ids.getD j 0) axis > t then scanDown pts axis t ids fuel (j - 1) else j

/-- The inner partition loop of `select` (lines 461-465):
`while (i < j) { swap(i++, j--); ...scans... }`, with fuel. -/
def partLoop (pts : List (ℚ × ℚ)) (axis : Nat) (t : ℚ) :
    Nat → List Nat → Nat → Nat → List Nat × Nat × Nat
  | 0, ids, i, j => (ids, i, j)
  | fuel + 1, ids, i, j =>
    if i < j then
      let ids1 := lswap ids i j
      let i1 := scanUp pts axis t ids1 (ids1.length + 1) (i + 1)
      let j1 := scanDown pts axis t ids1 (ids1.length + 1) (j - 1)
      partLoop pts axis t fuel ids1 i1 j1
    else (ids, i, j)

/-- The outer loop of `select(left, right, k, axis)` (lines 453-471):
a Floyd-Rivest style selection placing the k-th element by coordinate; the
`if (right - left > 600) {...}` body is omitted in the source (no-op).  All
index bookkeeping mirrors the JS statement by statement; every mutation of
`ids` is a swap. -/
def selectLoop (pts : List (ℚ × ℚ)) (k axis : Nat) :
    Nat → List Nat → Nat → Nat → List Nat
  | 0, ids, _, _ => ids
  | fuel + 1, ids, left, right =>
    if left < right then
      let t := coordAt pts (ids.getD k 0) axis
      let ids1 := lswap ids left k
      let ids2 := if coordAt pts (ids1.getD right 0) axis > t then lswap ids1 left right else ids1
      let r := partLoop pts axis t (ids2.length + 1) ids2 left right
      let ids3 := r.1
      let j0 := r.2.2
      let pair :=
        if coordAt pts (ids3.getD left 0) axis = t then (lswap ids3 left j0, j0)
        else (lswap ids3 (j0 + 1) right, j0 + 1)
      let ids4 := pair.1
      let j1 := pair.2
      let left1 := if j1 ≤ k then j1 + 1 else left
      let right1 := if k ≤ j1 then j1 - 1 else right
      selectLoop pts k axis fuel ids4 left1 right1
    else ids

/-- `select(left, right, k, axis)` with ample fuel. -/
def select (pts : List (ℚ × ℚ)) (ids : List Nat) (left right k axis : Nat) : List Nat :=
  selectLoop pts k axis (ids.length + right + 2) ids left right

/-- The recursive `sort(left, right, axis)` (lines 445-451): stop on runs of at
most nodeSize = 64 entries, otherwise select the median and recurse on both
halves with the other axis.  Fuel bounds the recursion depth; `KDB.build`
supplies `points.length + 1`, more than the depth of the JS recursion. -/
def sortKD (pts : List (ℚ × ℚ)) : Nat → List Nat → Nat → Nat → Nat → List Nat
  | 0, ids, _, _, _ => ids
  | fuel + 1, ids, left, right, axis =>
    if right - left ≤ 64 then ids
    else
      let median := left + (right - left) / 2
      let ids1 := select pts ids left right median axis
      let ids2 := sortKD pts fuel ids1 left (median - 1) (1 - axis)
      sortKD pts fuel ids2 (median + 1) right (1 - axis)

/-- The built KDBush index: the input points plus the reordered id array. -/
structure KDB where
  points : List (ℚ × ℚ)
  ids : List Nat

/-- `new KDBush(points)` followed by the no-op `finish()`: ids = [0..n-1],
coords filled from the points, then `sort(0, ids.length - 1, 0)`
(lines 427-443). -/
def KDB.build (pts : List (ℚ × ℚ)) : KDB :=
  ⟨pts, sortKD pts (pts.length + 1) (List.range pts.length) 0 (pts.length - 1) 0⟩

/-- `range(minX, minY, maxX, maxY)` (lines 479-490): a linear scan over `ids`
returning every id whose coordinates lie in the closed rectangle. -/
def KDB.range (b : KDB) (minX minY maxX maxY : ℚ) : List Nat :=
  b.ids.filter (fun id =>
    decide (minX ≤ coordAt b.points id 0 ∧ coordAt b.points id 0 ≤ maxX ∧
      minY ≤ coordAt b.points id 1 ∧ coordAt b.points id 1 ≤ maxY))

lemma partLoop_perm (pts : List (ℚ × ℚ)) (axis : Nat) (t : ℚ) :
    ∀ (fuel : Nat) (ids : List Nat) (i j : Nat),
      ((partLoop pts axis t fuel ids i j).1).Perm ids := by
  intro fuel
  induction fuel with
  | zero => intro ids i j; exact List.Perm.refl ids
  | succ f ih =>
    intro ids i j
    unfold partLoop
    by_cases hij : i < j
    · rw [if_pos hij]
      exact (ih (lswap ids i j) _ _).trans (lswap_perm ids i j)
    · rw [if_neg hij]

lemma selectLoop_perm (pts : List (ℚ × ℚ)) (k axis : Nat) :
    ∀ (fuel : Nat) (ids : List Nat) (left right : Nat),
      (selectLoop pts k axis fuel ids left right).Perm ids := by
  intro fuel
  induction fuel with
  | zero => intro ids left right; exact List.Perm.refl ids
  | succ f ih =>
    intro ids left right
    unfold selectLoop
    by_cases hlr : left < right
    · rw [if_pos hlr]
      have h1 : (lswap ids left k).Perm ids := lswap_perm ids left k
      set t := coordAt pts (ids.getD k 0) axis with ht
      set ids1 := lswap ids left k with hids1
      set ids2 :=
        if coordAt pts (ids1.getD right 0) axis > t then lswap ids1 left right else ids1
        with hids2
      have h2 : ids2.Perm ids1 := by
        rw [hids2]
        split
        · exact lswap_perm ids1 left right
        · exact List.Perm.refl ids1
      set r := partLoop pts axis t (ids2.length + 1) ids2 left right with hr
      have h3 : (r.1).Perm ids2 := partLoop_perm pts axis t _ ids2 left right
      set pair :=
        if coordAt pts ((r.1).getD left 0) axis = t then (lswap r.1 left r.2.2, r.2.2)
        else (lswap r.1 (r.2.2 + 1) right, r.2.2 + 1) with hpair
      have h4 : (pair.1).Perm r.1 := by
        rw [hpair]
        split
        · exact lswap_perm r.1 left r.2.2
        · exact lswap_perm r.1 (r.2.2 + 1) right
      exact (ih pair.1 _ _).trans (h4.trans (h3.trans (h2.trans h1)))
    · rw [if_neg hlr]

lemma select_perm (pts : List (ℚ × ℚ)) (ids : List Nat) (left right k axis : Nat) :
    (select pts ids left right k axis).Perm ids :=
  selectLoop_perm pts k axis _ ids left right

lemma sortKD_perm (pts : List (ℚ × ℚ)) :
    ∀ (fuel : Nat) (ids : List Nat) (left right axis : Nat),
      (sortKD pts fuel ids left right axis).Perm ids := by
  intro fuel
  induction fuel with
  | zero => intro ids left right axis; exact List.Perm.refl ids
  | succ f ih =>
    intro ids left right axis
    unfold sortKD
    by_cases hstop : right - left ≤ 64
    · rw [if_pos hstop]
    · rw [if_neg hstop]
      exact (ih _ _ _ _).trans ((ih _ _ _ _).trans (select_perm pts ids left right _ axis))

lemma build_ids_perm (pts : List (ℚ × ℚ)) :
    ((KDB.build pts).ids).Perm (List.range pts.length) :=
  sortKD_perm pts _ _ _ _ _

/-- C8: after the bulk build (partition via the swap-only selection) the
internal id array is a permutation of the input indices 0..n-1 — no entry
dropped, none duplicated — and consequently `range` after `build` returns, up
to order, exactly the canonical filtered index set determined by the input
points and the rectangle: the result set is the same (as an unordered set) on
every run. -/
theorem C8_build_ids_permutation (pts : List (ℚ × ℚ)) (minX minY maxX maxY : ℚ) :
    ((KDB.build pts).ids).Perm (List.range pts.length) ∧
      ((KDB.build pts).range minX minY maxX maxY).Perm
        ((List.range pts.length).filter (fun id =>
          decide (minX ≤ coordAt pts id 0 ∧ coordAt pts id 0 ≤ maxX ∧
            minY ≤ coordAt pts id 1 ∧ coordAt pts id 1 ≤ maxY))) :=
  ⟨build_ids_perm pts, List.Perm.filter _ (build_ids_perm pts)⟩

/-- C2: for every input point list and query rectangle, `range` returns every
index whose coordinate lies in the closed rectangle (no false negatives), and
it returns the empty list when no entry matches. -/
theorem C2_range_recall (pts : List (ℚ × ℚ)) (minX minY maxX maxY : ℚ) :
    (∀ i, i < pts.length →
        minX ≤ coordAt pts i 0 → coordAt pts i 0 ≤ maxX →
        minY ≤ coordAt pts i 1 → coordAt pts i 1 ≤ maxY →
        i ∈ (KDB.build pts).range minX minY maxX maxY) ∧
      ((∀ i, i < pts.length →
          ¬(minX ≤ coordAt pts i 0 ∧ coordAt pts i 0 ≤ maxX ∧
            minY ≤ coordAt pts i 1 ∧ coordAt pts i 1 ≤ maxY)) →
        (KDB.build pts).range minX minY maxX maxY = []) := by
  constructor
  · intro i hi h1 h2 h3 h4
    have hmem : i ∈ (KDB.build pts).ids :=
      ((build_ids_perm pts).mem_iff).mpr (List.mem_range.mpr hi)
    unfold KDB.range
    refine List.mem_filter.mpr ⟨hmem, ?_⟩
    simp only [decide_eq_true_eq]
    exact ⟨h1, h2, h3, h4⟩
  · intro hnone
    unfold KDB.range
    refine List.filter_eq_nil_iff.mpr ?_
    intro a ha
    have haa : a < pts.length := List.mem_range.mp ((build_ids_perm pts).mem_iff.mp ha)
    simp only [decide_eq_true_eq]
    exact hnone a haa

/-- Witness for C2: with points (0,0) and (2,2) and query rectangle
[-1,1] x [-1,1], index 0 is inside the rectangle and is returned by range. -/
theorem C2_range_recall_witness :
    0 ∈ (KDB.build [((0 : ℚ), (0 : ℚ)), (2, 2)]).range (-1) (-1) 1 1 :=
  (C2_range_recall [(0, 0), (2, 2)] (-1) (-1) 1 1).1 0 (by norm_num)
    (by norm_num [coordAt]) (by norm_num [coordAt]) (by norm_num [coordAt])
    (by norm_num [coordAt])

/-
Embedding of checkPointInGeoJSON (src/src/MyGeoJsonMap.jsx lines 700-851).
GeoJSON coordinates are (longitude, latitude) pairs.  The Turf.js library is
external (loaded from a CDN as the ambient global `window.turf`); its calls are
modelled by the oracle record `Turf`, with `Option` results standing for calls
that may throw (each call site is wrapped in try/catch in the source, and a
throw makes the resolver skip the candidate).  `turf.area` results that are
non-finite are folded into `⊤` of `WithTop ℚ`, the model of the JS Infinity
the resolver substitutes for them.
-/

/-- A GeoJSON coordinate: (longitude, latitude). -/
abbrev GCoord := ℚ × ℚ

/-- The geometry of a GeoJSON feature, tagged by its `type` string. -/
inductive Geometry where
  | point : GCoord → Geometry
  | lineString : List GCoord → Geometry
  | multiLineString : List (List GCoord) → Geometry
  | polygon : List (List GCoord) → Geometry
  | multiPolygon : List (List (List GCoord)) → Geometry
deriving DecidableEq

/-- A GeoJSON feature as consumed by checkPointInGeoJSON: a geometry plus the
two name properties it reads (`properties?.Name` and `properties?.name`). -/
structure Feature where
  geometry : Geometry
  propNameUpper : Option String
  propNameLower : Option String
deriving DecidableEq

/-- `feature.geometry.type === 'Point'`. -/
def isPointGeom (f : Feature) : Bool :=
  match f.geometry with
  | .point _ => true
  | _ => false

/-- `feature.geometry.type === 'Polygon' || feature.geometry.type === 'MultiPolygon'`. -/
def isPolyGeom (f : Feature) : Bool :=
  match f.geometry with
  | .polygon _ => true
  | .multiPolygon _ => true
  | _ => false

/-- `feature.geometry.type === 'LineString' || feature.geometry.type === 'MultiLineString'`. -/
def isLineGeom (f : Feature) : Bool :=
  match f.geometry with
  | .lineString _ => true
  | .multiLineString _ => true
  | _ => false

/-- JS `a || dflt` for an optional string: an absent or empty string is falsy. -/
def jsStringOr (a : Option String) (dflt : String) : String :=
  match a with
  | some s => if s = "" then dflt else s
  | none => dflt

/-- `feature.properties?.Name || feature.properties?.name || 'ميزة غير مسماة'`
(lines 730 and 774). -/
def featureName (f : Feature) : String :=
  jsStringOr f.propNameUpper (jsStringOr f.propNameLower "ميزة غير مسماة")

/-- The exterior ring used for polygon-edge proximity (lines 817-822):
`coordinates[0]` for a Polygon, `coordinates[0][0]` for a MultiPolygon,
skipped (JS falsy) when the nesting is missing. -/
def exteriorRing (f : Feature) : Option (List GCoord) :=
  match f.geometry with
  | .polygon rings => rings.head?
  | .multiPolygon polys => polys.head?.bind List.head?
  | _ => none

/-- Oracle for the external Turf.js calls made by checkPointInGeoJSON.
`none` models a thrown exception (caught and skipped by the resolver);
`area` returns `⊤` for a non-finite result or a throw, both of which the
resolver folds into Infinity. -/
structure Turf where
  distance : GCoord → Feature → Option ℚ
  booleanPointInPolygon : GCoord → Feature → Option Bool
  area : Feature → WithTop ℚ
  pointToLineDistance : GCoord → Feature → Option ℚ
  pointToLineDistanceRing : GCoord → List GCoord → Option ℚ

/-- The spatialIndex state: the built KDBush plus the featureMap from index
entry id to feature (Map.get returning none for an absent key). -/
structure SpatialIndexState where
  index : KDB
  featureMap : Nat → Option Feature

/-- The dependencies read by the guard of checkPointInGeoJSON (lines 703-708):
truthiness of geojsonData, processedPointsData, spatialIndex, isTurfLoaded,
isKDBushLoaded and window.turf. -/
structure ResolverDeps where
  geojsonData : Bool
  processedPointsData : Bool
  spatialIndex : Option SpatialIndexState
  isTurfLoaded : Bool
  isKDBushLoaded : Bool
  turfGlobal : Bool

/-- `MAX_DISTANCE_TO_POINT_KM = 0.05` (line 417). -/
def MAX_DISTANCE_TO_POINT_KM : ℚ := 0.05

/-- `MAX_DISTANCE_TO_LINE_OR_EDGE_KM = 1.0` (line 420). -/
def MAX_DISTANCE_TO_LINE_OR_EDGE_KM : ℚ := 1.0

/-- Stage-1 candidate ids: the range query of lines 717-723 over the square of
half-width `MAX_DISTANCE_TO_POINT_KM / 111.32` degrees around the query. -/
def pointCandidates (si : SpatialIndexState) (lat lng : ℚ) : List Nat :=
  si.index.range (lng - MAX_DISTANCE_TO_POINT_KM / 111.32)
    (lat - MAX_DISTANCE_TO_POINT_KM / 111.32)
    (lng + MAX_DISTANCE_TO_POINT_KM / 111.32)
    (lat + MAX_DISTANCE_TO_POINT_KM / 111.32)

/-- Stage-2 candidate ids: the range query of lines 757-766 over the square of
half-width `MAX_DISTANCE_TO_LINE_OR_EDGE_KM / 111.32` degrees. -/
def geometryCandidates (si : SpatialIndexState) (lat lng : ℚ) : List Nat :=
  si.index.range (lng - MAX_DISTANCE_TO_LINE_OR_EDGE_KM / 111.32)
    (lat - MAX_DISTANCE_TO_LINE_OR_EDGE_KM / 111.32)
    (lng + MAX_DISTANCE_TO_LINE_OR_EDGE_KM / 111.32)
    (lat + MAX_DISTANCE_TO_LINE_OR_EDGE_KM / 111.32)

/-- One iteration of the stage-1 loop (lines 726-741): skip non-Point features
and features missing from the map, compute the turf distance, and keep the
strictly nearest name within `MAX_DISTANCE_TO_POINT_KM`.  The accumulator is
(minDistanceToDisplayedPoint, nearestDisplayedPointName), starting at
(Infinity, null). -/
def stage1Step (si : SpatialIndexState) (turf : Turf) (q : GCoord)
    (acc : WithTop ℚ × Option String) (oi : Nat) : WithTop ℚ × Option String :=
  match si.featureMap oi with
  | none => acc
  | some f =>
    if isPointGeom f then
      match turf.distance q f with
      | none => acc
      | some d =>
        if d ≤ MAX_DISTANCE_TO_POINT_KM ∧ (d : WithTop ℚ) < acc.1 then
          ((d : WithTop ℚ), some (featureName f))
        else acc
    else acc

/-- The whole stage-1 loop over the candidate ids. -/
def stage1Fold (si : SpatialIndexState) (turf : Turf) (q : GCoord)
    (cands : List Nat) : WithTop ℚ × Option String :=
  cands.foldl (stage1Step si turf q) (⊤, none)

/-- The stage-2 accumulators (lines 752-755): minContainedArea /
bestContainedPolygonName for the containment tier, minDistanceToLineOrEdge /
nearestLineOrEdgeName for the line/edge tier. -/
structure Stage2Acc where
  minContainedArea : WithTop ℚ
  bestContainedPolygonName : Option String
  minDistanceToLineOrEdge : WithTop ℚ
  nearestLineOrEdgeName : Option String
deriving DecidableEq

/-- Initial stage-2 accumulator: both minima at Infinity, both names null. -/
def initStage2Acc : Stage2Acc := ⟨⊤, none, ⊤, none⟩

/-- Lines 779-788: `turf.area`, with non-finite or non-positive results (and
throws) replaced by Infinity. -/
def mapArea (a : WithTop ℚ) : WithTop ℚ :=
  if a = ⊤ ∨ a ≤ 0 then ⊤ else a

/-- One iteration of the stage-2 loop (lines 770-836): polygon containment
with smallest-area preference, else line proximity, plus the separate
polygon-exterior-edge proximity block, each guarded by try/catch. -/
def stage2Step (turf : Turf) (q : GCoord) (acc : Stage2Acc) (ofeat : Option Feature) :
    Stage2Acc :=
  match ofeat with
  | none => acc
  | some f =>
    let nm := featureName f
    let acc1 :=
      if isPolyGeom f then
        match turf.booleanPointInPolygon q f with
        | none => acc
        | some false => acc
        | some true =>
          let a := mapArea (turf.area f)
          if a < acc.minContainedArea then
            { acc with minContainedArea := a, bestContainedPolygonName := some nm }
          else acc
      else if isLineGeom f then
        match turf.pointToLineDistance q f with
        | none => acc
        | some d =>
          if d ≤ MAX_DISTANCE_TO_LINE_OR_EDGE_KM ∧ (d : WithTop ℚ) < acc.minDistanceToLineOrEdge then
            { acc with minDistanceToLineOrEdge := (d : WithTop ℚ),
                       nearestLineOrEdgeName := some nm }
          else acc
      else acc
    if isPolyGeom f then
      match exteriorRing f with
      | none => acc1
      | some ring =>
        match turf.pointToLineDistanceRing q ring with
        | none => acc1
        | some d =>
          if d ≤ MAX_DISTANCE_TO_LINE_OR_EDGE_KM ∧
              (d : WithTop ℚ) < acc1.minDistanceToLineOrEdge then
            { acc1 with minDistanceToLineOrEdge := (d : WithTop ℚ),
                        nearestLineOrEdgeName := some nm }
          else acc1
    else acc1

/-- The whole stage-2 loop over the candidate ids. -/
def stage2Fold (si : SpatialIndexState) (turf : Turf) (q : GCoord)
    (cands : List Nat) : Stage2Acc :=
  cands.foldl (fun acc oi => stage2Step turf q acc (si.featureMap oi)) initStage2Acc

/-- Shallow embedding of checkPointInGeoJSON(lat, lng) (lines 700-851):
the dependency guard returning null, stage 1 (nearest displayed point, early
return), stage 2 (containing polygon of smallest area, else nearest line or
polygon edge), and the final decision of lines 838-847. -/
def checkPointInGeoJSON (deps : ResolverDeps) (turf : Turf) (lat lng : ℚ) : Option String :=
  if deps.geojsonData = false ∨ deps.processedPointsData = false ∨
      deps.spatialIndex.isNone = true ∨ deps.isTurfLoaded = false ∨
      deps.isKDBushLoaded = false ∨ deps.turfGlobal = false then
    none
  else
    match deps.spatialIndex with
    | none => none
    | some si =>
      let q : GCoord := (lng, lat)
      match (stage1Fold si turf q (pointCandidates si lat lng)).2 with
      | some nm => some nm
      | none =>
        let acc := stage2Fold si turf q (geometryCandidates si lat lng)
        match acc.bestContainedPolygonName with
        | some nm => some nm
        | none => acc.nearestLineOrEdgeName

/-- The dependency state after a successful load: every flag true and the
index built. -/
def readyDeps (si : SpatialIndexState) : ResolverDeps :=
  ⟨true, true, some si, true, true, true⟩

lemma checkPointInGeoJSON_ready (si : SpatialIndexState) (turf : Turf) (lat lng : ℚ) :
    checkPointInGeoJSON (readyDeps si) turf lat lng =
      match (stage1Fold si turf (lng, lat) (pointCandidates si lat lng)).2 with
      | some nm => some nm
      | none =>
        match (stage2Fold si turf (lng, lat) (geometryCandidates si lat lng)).bestContainedPolygonName with
        | some nm => some nm
        | none => (stage2Fold si turf (lng, lat) (geometryCandidates si lat lng)).nearestLineOrEdgeName := by
  unfold checkPointInGeoJSON readyDeps
  simp

/-
Generic machinery: both stage-1 and both parts of stage 2 are instances of the
same "keep the first strict minimum among qualifying entries" fold.  An entry
is `none` when the candidate is skipped (missing feature, wrong geometry type,
or a thrown library call); a `some (d, nm)` entry qualifies when `P d` holds,
and the accumulator keeps the strictly smallest qualifying value together with
the name of the first candidate attaining it.
-/

/-- One step of the selection fold. -/
def selStep (P : WithTop ℚ → Prop) [DecidablePred P]
    (acc : WithTop ℚ × Option String) (e : Option (WithTop ℚ × String)) :
    WithTop ℚ × Option String :=
  match e with
  | none => acc
  | some (d, nm) => if P d ∧ d < acc.1 then (d, some nm) else acc

/-- The selection fold from the initial accumulator (Infinity, null). -/
def selMin (P : WithTop ℚ → Prop) [DecidablePred P]
    (es : List (Option (WithTop ℚ × String))) : WithTop ℚ × Option String :=
  es.foldl (selStep P) (⊤, none)

lemma selStep_none (P : WithTop ℚ → Prop) [DecidablePred P] (acc : WithTop ℚ × Option String) :
    selStep P acc none = acc := rfl

lemma selStep_some (P : WithTop ℚ → Prop) [DecidablePred P] (acc : WithTop ℚ × Option String)
    (d : WithTop ℚ) (nm : String) :
    selStep P acc (some (d, nm)) = if P d ∧ d < acc.1 then (d, some nm) else acc := rfl

lemma selFold_fst_le (P : WithTop ℚ → Prop) [DecidablePred P]
    (es : List (Option (WithTop ℚ × String))) :
    ∀ acc, (es.foldl (selStep P) acc).1 ≤ acc.1 := by
  induction es with
  | nil => intro acc; exact le_refl _
  | cons e t ih =>
    intro acc
    rw [List.foldl_cons]
    refine le_trans (ih (selStep P acc e)) ?_
    match e with
    | none => rw [selStep_none]
    | some (d, nm) =>
      rw [selStep_some]
      by_cases h : P d ∧ d < acc.1
      · rw [if_pos h]; exact le_of_lt h.2
      · rw [if_neg h]

lemma selFold_le_of_mem (P : WithTop ℚ → Prop) [DecidablePred P]
    (es : List (Option (WithTop ℚ × String))) :
    ∀ acc d nm, some (d, nm) ∈ es → P d → (es.foldl (selStep P) acc).1 ≤ d := by
  induction es with
  | nil => intro acc d nm h; simp at h
  | cons e t ih =>
    intro acc d nm hmem hP
    rw [List.foldl_cons]
    rcases List.mem_cons.mp hmem with heq | htail
    · subst heq
      refine le_trans (selFold_fst_le P t _) ?_
      rw [selStep_some]
      by_cases h : P d ∧ d < acc.1
      · rw [if_pos h]
      · rw [if_neg h]
        have hnlt : ¬ d < acc.1 := fun hlt => h ⟨hP, hlt⟩
        exact le_of_not_lt hnlt
    · exact ih _ d nm htail hP

lemma selFold_cases (P : WithTop ℚ → Prop) [DecidablePred P]
    (es : List (Option (WithTop ℚ × String))) :
    ∀ acc, es.foldl (selStep P) acc = acc ∨
      ∃ d nm, some (d, nm) ∈ es ∧ P d ∧ es.foldl (selStep P) acc = (d, some nm) := by
  induction es with
  | nil => intro acc; exact Or.inl rfl
  | cons e t ih =>
    intro acc
    rw [List.foldl_cons]
    rcases ih (selStep P acc e) with h | ⟨d, nm, hmem, hP, heq⟩
    · rw [h]
      match e with
      | none => rw [selStep_none]; exact Or.inl rfl
      | some (d, nm) =>
        rw [selStep_some]
        by_cases hc : P d ∧ d < acc.1
        · rw [if_pos hc]
          exact Or.inr ⟨d, nm, List.mem_cons_self _ _, hc.1, rfl⟩
        · rw [if_neg hc]
          exact Or.inl rfl
    · exact Or.inr ⟨d, nm, List.mem_cons_of_mem e hmem, hP, heq⟩

lemma selFold_no_update (P : WithTop ℚ → Prop) [DecidablePred P]
    (es : List (Option (WithTop ℚ × String))) :
    ∀ acc, (∀ d nm, some (d, nm) ∈ es → P d → ¬ d < acc.1) →
      es.foldl (selStep P) acc = acc := by
  induction es with
  | nil => intro acc _; rfl
  | cons e t ih =>
    intro acc hno
    rw [List.foldl_cons]
    have hstep : selStep P acc e = acc := by
      match e with
      | none => rw [selStep_none]
      | some (d, nm) =>
        rw [selStep_some, if_neg]
        intro hc
        exact hno d nm (List.mem_cons_self _ _) hc.1 hc.2
    rw [hstep]
    exact ih acc (fun d nm hmem hP => hno d nm (List.mem_cons_of_mem e hmem) hP)

lemma selMin_attained (P : WithTop ℚ → Prop) [DecidablePred P]
    (es : List (Option (WithTop ℚ × String)))
    (d0 : WithTop ℚ) (nm0 : String) (hmem : some (d0, nm0) ∈ es) (hP : P d0)
    (htop : d0 ≠ ⊤) :
    ∃ d nm, some (d, nm) ∈ es ∧ P d ∧ selMin P es = (d, some nm) ∧
      ∀ e x, some (e, x) ∈ es → P e → d ≤ e := by
  have hle : (es.foldl (selStep P) (⊤, none)).1 ≤ d0 :=
    selFold_le_of_mem P es _ d0 nm0 hmem hP
  rcases selFold_cases P es (⊤, none) with h | ⟨d, nm, hm, hPd, heq⟩
  · exfalso
    rw [h] at hle
    exact htop (top_le_iff.mp hle)
  · have heq2 : selMin P es = (d, some nm) := heq
    refine ⟨d, nm, hm, hPd, heq2, fun e x hmem2 hP2 => ?_⟩
    have hle2 : (es.foldl (selStep P) (⊤, none)).1 ≤ e :=
      selFold_le_of_mem P es (⊤, none) e x hmem2 hP2
    rw [heq] at hle2
    exact hle2

lemma selMin_pivot (P : WithTop ℚ → Prop) [DecidablePred P]
    (l1 l2 : List (Option (WithTop ℚ × String))) (a : WithTop ℚ) (nm : String)
    (hP : P a) (ha : a ≠ ⊤)
    (h1 : ∀ d x, some (d, x) ∈ l1 → P d → a < d)
    (h2 : ∀ d x, some (d, x) ∈ l2 → P d → a ≤ d) :
    selMin P (l1 ++ some (a, nm) :: l2) = (a, some nm) := by
  unfold selMin
  rw [List.foldl_append, List.foldl_cons]
  have hacc1 : a < (l1.foldl (selStep P) (⊤, none)).1 := by
    rcases selFold_cases P l1 (⊤, none) with h | ⟨d, x, hm, hPd, heq⟩
    · rw [h]
      exact lt_top_iff_ne_top.mpr ha
    · rw [heq]
      exact h1 d x hm hPd
  rw [selStep_some, if_pos ⟨hP, hacc1⟩]
  exact selFold_no_update P l2 (a, some nm)
    (fun d x hm hPd => not_lt.mpr (h2 d x hm hPd))

/-- The stage-1 qualification predicate: within `MAX_DISTANCE_TO_POINT_KM`. -/
def pointThr : WithTop ℚ → Prop := fun d => d ≤ ((MAX_DISTANCE_TO_POINT_KM : ℚ) : WithTop ℚ)

/-- The line/edge qualification predicate: within `MAX_DISTANCE_TO_LINE_OR_EDGE_KM`. -/
def lineThr : WithTop ℚ → Prop := fun d => d ≤ ((MAX_DISTANCE_TO_LINE_OR_EDGE_KM : ℚ) : WithTop ℚ)

/-- The containment tier has no threshold: every containing polygon qualifies
(the area filter happens through `mapArea` and the strict comparison). -/
def areaThr : WithTop ℚ → Prop := fun _ => True

instance : DecidablePred pointThr := fun d =>
  inferInstanceAs (Decidable (d ≤ ((MAX_DISTANCE_TO_POINT_KM : ℚ) : WithTop ℚ)))

instance : DecidablePred lineThr := fun d =>
  inferInstanceAs (Decidable (d ≤ ((MAX_DISTANCE_TO_LINE_OR_EDGE_KM : ℚ) : WithTop ℚ)))

instance : DecidablePred areaThr := fun _ => inferInstanceAs (Decidable True)

/-- The stage-1 contribution of one candidate: its turf distance and name when
it is a Point feature present in the map whose distance call succeeds. -/
def stage1Entry (si : SpatialIndexState) (turf : Turf) (q : GCoord) (oi : Nat) :
    Option (WithTop ℚ × String) :=
  match si.featureMap oi with
  | none => none
  | some f =>
    if isPointGeom f then
      match turf.distance q f with
      | none => none
      | some d => some ((d : WithTop ℚ), featureName f)
    else none

/-- The containment-tier contribution of one candidate feature: its mapped
area and name when it is a polygon that contains the query point. -/
def polyEntryF (turf : Turf) (q : GCoord) (of : Option Feature) :
    Option (WithTop ℚ × String) :=
  match of with
  | none => none
  | some f =>
    if isPolyGeom f then
      match turf.booleanPointInPolygon q f with
      | some true => some (mapArea (turf.area f), featureName f)
      | _ => none
    else none

/-- The line-tier contribution of one candidate feature: the distance to a
LineString/MultiLineString feature, or to the exterior ring of a polygon. -/
def lineEntryF (turf : Turf) (q : GCoord) (of : Option Feature) :
    Option (WithTop ℚ × String) :=
  match of with
  | none => none
  | some f =>
    if isPolyGeom f then
      match exteriorRing f with
      | none => none
      | some ring =>
        match turf.pointToLineDistanceRing q ring with
        | none => none
        | some d => some ((d : WithTop ℚ), featureName f)
    else if isLineGeom f then
      match turf.pointToLineDistance q f with
      | none => none
      | some d => some ((d : WithTop ℚ), featureName f)
    else none

lemma stage1Step_eq (si : SpatialIndexState) (turf : Turf) (q : GCoord)
    (acc : WithTop ℚ × Option String) (oi : Nat) :
    stage1Step si turf q acc oi = selStep pointThr acc (stage1Entry si turf q oi) := by
  cases hf : si.featureMap oi with
  | none => simp [stage1Step, stage1Entry, hf, selStep_none]
  | some f =>
    by_cases hp : isPointGeom f = true
    · cases hd : turf.distance q f with
      | none => simp [stage1Step, stage1Entry, hf, hp, hd, selStep_none]
      | some d =>
        simp only [stage1Step, stage1Entry, hf, hp, hd, if_true]
        rw [selStep_some]
        refine if_congr (and_congr_left' ?_) rfl rfl
        exact (WithTop.coe_le_coe).symm
    · simp [stage1Step, stage1Entry, hf, hp, selStep_none]

lemma stage1Fold_eq (si : SpatialIndexState) (turf : Turf) (q : GCoord) (cands : List Nat) :
    stage1Fold si turf q cands = selMin pointThr (cands.map (stage1Entry si turf q)) := by
  unfold stage1Fold selMin
  rw [List.foldl_map]
  congr 1
  funext acc oi
  exact stage1Step_eq si turf q acc oi

lemma stage2Step_eq (turf : Turf) (q : GCoord) (acc : Stage2Acc) (of : Option Feature) :
    stage2Step turf q acc of =
      { minContainedArea :=
          (selStep areaThr (acc.minContainedArea, acc.bestContainedPolygonName)
            (polyEntryF turf q of)).1,
        bestContainedPolygonName :=
          (selStep areaThr (acc.minContainedArea, acc.bestContainedPolygonName)
            (polyEntryF turf q of)).2,
        minDistanceToLineOrEdge :=
          (selStep lineThr (acc.minDistanceToLineOrEdge, acc.nearestLineOrEdgeName)
            (lineEntryF turf q of)).1,
        nearestLineOrEdgeName :=
          (selStep lineThr (acc.minDistanceToLineOrEdge, acc.nearestLineOrEdgeName)
            (lineEntryF turf q of)).2 } := by
  cases of with
  | none => simp [stage2Step, polyEntryF, lineEntryF, selStep_none]
  | some f =>
    by_cases hp : isPolyGeom f = true
    · cases hpip : turf.booleanPointInPolygon q f with
      | none =>
        cases hring : exteriorRing f with
        | none =>
          simp [stage2Step, polyEntryF, lineEntryF, hp, hpip, hring, selStep_none]
        | some ring =>
          cases hd : turf.pointToLineDistanceRing q ring with
          | none =>
            simp [stage2Step, polyEntryF, lineEntryF, hp, hpip, hring, hd, selStep_none]
          | some d =>
            simp only [stage2Step, polyEntryF, lineEntryF, hp, hpip, hring, hd, if_true,
              selStep_none, selStep_some]
            by_cases hcond : d ≤ MAX_DISTANCE_TO_LINE_OR_EDGE_KM ∧
                (d : WithTop ℚ) < acc.minDistanceToLineOrEdge
            · rw [if_pos hcond, if_pos (show lineThr (d : WithTop ℚ) ∧
                (d : WithTop ℚ) < acc.minDistanceToLineOrEdge from
                ⟨WithTop.coe_le_coe.mpr hcond.1, hcond.2⟩)]
            · rw [if_neg hcond, if_neg (show ¬(lineThr (d : WithTop ℚ) ∧
                (d : WithTop ℚ) < acc.minDistanceToLineOrEdge) from
                fun hc => hcond ⟨WithTop.coe_le_coe.mp hc.1, hc.2⟩)]
      | some b =>
        cases b with
        | false =>
          cases hring : exteriorRing f with
          | none =>
            simp [stage2Step, polyEntryF, lineEntryF, hp, hpip, hring, selStep_none]
          | some ring =>
            cases hd : turf.pointToLineDistanceRing q ring with
            | none =>
              simp [stage2Step, polyEntryF, lineEntryF, hp, hpip, hring, hd, selStep_none]
            | some d =>
              simp only [stage2Step, polyEntryF, lineEntryF, hp, hpip, hring, hd, if_true,
                selStep_none, selStep_some]
              by_cases hcond : d ≤ MAX_DISTANCE_TO_LINE_OR_EDGE_KM ∧
                  (d : WithTop ℚ) < acc.minDistanceToLineOrEdge
              · rw [if_pos hcond, if_pos (show lineThr (d : WithTop ℚ) ∧
                  (d : WithTop ℚ) < acc.minDistanceToLineOrEdge from
                  ⟨WithTop.coe_le_coe.mpr hcond.1, hcond.2⟩)]
              · rw [if_neg hcond, if_neg (show ¬(lineThr (d : WithTop ℚ) ∧
                  (d : WithTop ℚ) < acc.minDistanceToLineOrEdge) from
                  fun hc => hcond ⟨WithTop.coe_le_coe.mp hc.1, hc.2⟩)]
        | true =>
          cases hring : exteriorRing f with
          | none =>
            simp only [stage2Step, polyEntryF, lineEntryF, hp, hpip, hring, if_true,
              selStep_none, selStep_some]
            by_cases harea : mapArea (turf.area f) < acc.minContainedArea
            · rw [if_pos harea, if_pos (show areaThr (mapArea (turf.area f)) ∧
                mapArea (turf.area f) < acc.minContainedArea from ⟨trivial, harea⟩)]
            · rw [if_neg harea, if_neg (show ¬(areaThr (mapArea (turf.area f)) ∧
                mapArea (turf.area f) < acc.minContainedArea) from fun hc => harea hc.2)]
          | some ring =>
            cases hd : turf.pointToLineDistanceRing q ring with
            | none =>
              simp only [stage2Step, polyEntryF, lineEntryF, hp, hpip, hring, hd, if_true,
                selStep_none, selStep_some]
              by_cases harea : mapArea (turf.area f) < acc.minContainedArea
              · rw [if_pos harea, if_pos (show areaThr (mapArea (turf.area f)) ∧
                  mapArea (turf.area f) < acc.minContainedArea from ⟨trivial, harea⟩)]
              · rw [if_neg harea, if_neg (show ¬(areaThr (mapArea (turf.area f)) ∧
                  mapArea (turf.area f) < acc.minContainedArea) from fun hc => harea hc.2)]
            | some d =>
              simp only [stage2Step, polyEntryF, lineEntryF, hp, hpip, hring, hd, if_true,
                selStep_none, selStep_some]
              by_cases harea : mapArea (turf.area f) < acc.minContainedArea
              · rw [if_pos harea, if_pos (show areaThr (mapArea (turf.area f)) ∧
                  mapArea (turf.area f) < acc.minContainedArea from ⟨trivial, harea⟩)]
                dsimp only
                by_cases hcond : d ≤ MAX_DISTANCE_TO_LINE_OR_EDGE_KM ∧
                    (d : WithTop ℚ) < acc.minDistanceToLineOrEdge
                · rw [if_pos hcond, if_pos (show lineThr (d : WithTop ℚ) ∧
                    (d : WithTop ℚ) < acc.minDistanceToLineOrEdge from
                    ⟨WithTop.coe_le_coe.mpr hcond.1, hcond.2⟩)]
                · rw [if_neg hcond, if_neg (show ¬(lineThr (d : WithTop ℚ) ∧
                    (d : WithTop ℚ) < acc.minDistanceToLineOrEdge) from
                    fun hc => hcond ⟨WithTop.coe_le_coe.mp hc.1, hc.2⟩)]
              · rw [if_neg harea, if_neg (show ¬(areaThr (mapArea (turf.area f)) ∧
                  mapArea (turf.area f) < acc.minContainedArea) from fun hc => harea hc.2)]
                by_cases hcond : d ≤ MAX_DISTANCE_TO_LINE_OR_EDGE_KM ∧
                    (d : WithTop ℚ) < acc.minDistanceToLineOrEdge
                · rw [if_pos hcond, if_pos (show lineThr (d : WithTop ℚ) ∧
                    (d : WithTop ℚ) < acc.minDistanceToLineOrEdge from
                    ⟨WithTop.coe_le_coe.mpr hcond.1, hcond.2⟩)]
                · rw [if_neg hcond, if_neg (show ¬(lineThr (d : WithTop ℚ) ∧
                    (d : WithTop ℚ) < acc.minDistanceToLineOrEdge) from
                    fun hc => hcond ⟨WithTop.coe_le_coe.mp hc.1, hc.2⟩)]
    · by_cases hl : isLineGeom f = true
      · cases hd : turf.pointToLineDistance q f with
        | none =>
          simp [stage2Step, polyEntryF, lineEntryF, hp, hl, hd, selStep_none]
        | some d =>
          simp only [stage2Step, polyEntryF, lineEntryF, hp, hl, hd, if_true, if_false,
            Bool.false_eq_true, selStep_none, selStep_some]
          by_cases hcond : d ≤ MAX_DISTANCE_TO_LINE_OR_EDGE_KM ∧
              (d : WithTop ℚ) < acc.minDistanceToLineOrEdge
          · rw [if_pos hcond, if_pos (show lineThr (d : WithTop ℚ) ∧
              (d : WithTop ℚ) < acc.minDistanceToLineOrEdge from
              ⟨WithTop.coe_le_coe.mpr hcond.1, hcond.2⟩)]
          · rw [if_neg hcond, if_neg (show ¬(lineThr (d : WithTop ℚ) ∧
              (d : WithTop ℚ) < acc.minDistanceToLineOrEdge) from
              fun hc => hcond ⟨WithTop.coe_le_coe.mp hc.1, hc.2⟩)]
      · simp [stage2Step, polyEntryF, lineEntryF, hp, hl, selStep_none]

lemma stage2Fold_decomp (si : SpatialIndexState) (turf : Turf) (q : GCoord) :
    ∀ (cands : List Nat) (A : Stage2Acc),
      cands.foldl (fun acc oi => stage2Step turf q acc (si.featureMap oi)) A =
        { minContainedArea :=
            ((cands.map (fun oi => polyEntryF turf q (si.featureMap oi))).foldl
              (selStep areaThr) (A.minContainedArea, A.bestContainedPolygonName)).1,
          bestContainedPolygonName :=
            ((cands.map (fun oi => polyEntryF turf q (si.featureMap oi))).foldl
              (selStep areaThr) (A.minContainedArea, A.bestContainedPolygonName)).2,
          minDistanceToLineOrEdge :=
            ((cands.map (fun oi => lineEntryF turf q (si.featureMap oi))).foldl
              (selStep lineThr) (A.minDistanceToLineOrEdge, A.nearestLineOrEdgeName)).1,
          nearestLineOrEdgeName :=
            ((cands.map (fun oi => lineEntryF turf q (si.featureMap oi))).foldl
              (selStep lineThr) (A.minDistanceToLineOrEdge, A.nearestLineOrEdgeName)).2 } := by
  intro cands
  induction cands with
  | nil => intro A; rfl
  | cons c t ih =>
    intro A
    rw [List.foldl_cons, List.map_cons, List.map_cons, List.foldl_cons, List.foldl_cons]
    rw [ih (stage2Step turf q A (si.featureMap c))]
    rw [stage2Step_eq turf q A (si.featureMap c)]

lemma stage2Fold_poly (si : SpatialIndexState) (turf : Turf) (q : GCoord) (cands : List Nat) :
    ((stage2Fold si turf q cands).minContainedArea,
      (stage2Fold si turf q cands).bestContainedPolygonName) =
      selMin areaThr (cands.map (fun oi => polyEntryF turf q (si.featureMap oi))) := by
  unfold stage2Fold selMin
  rw [stage2Fold_decomp si turf q cands initStage2Acc]
  rfl

lemma stage2Fold_line (si : SpatialIndexState) (turf : Turf) (q : GCoord) (cands : List Nat) :
    ((stage2Fold si turf q cands).minDistanceToLineOrEdge,
      (stage2Fold si turf q cands).nearestLineOrEdgeName) =
      selMin lineThr (cands.map (fun oi => lineEntryF turf q (si.featureMap oi))) := by
  unfold stage2Fold selMin
  rw [stage2Fold_decomp si turf q cands initStage2Acc]
  rfl

/-- C4: for a query point not contained in any candidate polygon, with at
least one candidate Point feature within `MAX_DISTANCE_TO_POINT_KM` of it,
resolution returns the name of a minimum-distance such Point feature; the
point match outranks any line match because stage 1 returns before lines are
even consulted.  (The no-containment hypothesis is part of the claim; it is
not needed by the code, whose stage 1 ignores polygons entirely.) -/
theorem C4_nearest_point_priority (si : SpatialIndexState) (turf : Turf) (lat lng : ℚ)
    (_hnopoly : ∀ oi ∈ geometryCandidates si lat lng, ∀ f, si.featureMap oi = some f →
      isPolyGeom f = true → turf.booleanPointInPolygon (lng, lat) f ≠ some true)
    (oi0 : Nat) (f0 : Feature) (d0 : ℚ)
    (h0 : oi0 ∈ pointCandidates si lat lng)
    (hf0 : si.featureMap oi0 = some f0)
    (hp0 : isPointGeom f0 = true)
    (hd0 : turf.distance (lng, lat) f0 = some d0)
    (hthr0 : d0 ≤ MAX_DISTANCE_TO_POINT_KM) :
    ∃ oi g dg, oi ∈ pointCandidates si lat lng ∧ si.featureMap oi = some g ∧
      isPointGeom g = true ∧ turf.distance (lng, lat) g = some dg ∧
      dg ≤ MAX_DISTANCE_TO_POINT_KM ∧
      checkPointInGeoJSON (readyDeps si) turf lat lng = some (featureName g) ∧
      ∀ oj h e, oj ∈ pointCandidates si lat lng → si.featureMap oj = some h →
        isPointGeom h = true → turf.distance (lng, lat) h = some e →
        e ≤ MAX_DISTANCE_TO_POINT_KM → dg ≤ e := by
  have hentry : stage1Entry si turf (lng, lat) oi0 = some ((d0 : WithTop ℚ), featureName f0) := by
    simp [stage1Entry, hf0, hp0, hd0]
  have hmem : some ((d0 : WithTop ℚ), featureName f0) ∈
      (pointCandidates si lat lng).map (stage1Entry si turf (lng, lat)) :=
    List.mem_map.mpr ⟨oi0, h0, hentry⟩
  obtain ⟨d, nm, hm, hPd, heq, hmin⟩ :=
    selMin_attained pointThr _ _ _ hmem (WithTop.coe_le_coe.mpr hthr0) WithTop.coe_ne_top
  obtain ⟨oi, hoi, hoie⟩ := List.mem_map.mp hm
  cases hg : si.featureMap oi with
  | none => simp [stage1Entry, hg] at hoie
  | some g =>
    by_cases hpg : isPointGeom g = true
    · cases hdg : turf.distance (lng, lat) g with
      | none => simp [stage1Entry, hg, hpg, hdg] at hoie
      | some dg =>
        simp only [stage1Entry, hg, hpg, hdg, if_true, Option.some_inj, Prod.mk.injEq] at hoie
        obtain ⟨hdeq, hnmeq⟩ := hoie
        have hthr_g : dg ≤ MAX_DISTANCE_TO_POINT_KM := by
          have := hPd
          rw [← hdeq] at this
          exact WithTop.coe_le_coe.mp this
        refine ⟨oi, g, dg, hoi, hg, hpg, hdg, hthr_g, ?_, ?_⟩
        · rw [checkPointInGeoJSON_ready]
          rw [stage1Fold_eq, heq, ← hnmeq]
        · intro oj h e hoj hh hph hde hthre
          have hentry2 : stage1Entry si turf (lng, lat) oj = some ((e : WithTop ℚ), featureName h) := by
            simp [stage1Entry, hh, hph, hde]
          have hmem2 : some ((e : WithTop ℚ), featureName h) ∈
              (pointCandidates si lat lng).map (stage1Entry si turf (lng, lat)) :=
            List.mem_map.mpr ⟨oj, hoj, hentry2⟩
          have := hmin _ _ hmem2 (WithTop.coe_le_coe.mpr hthre)
          rw [← hdeq] at this
          exact WithTop.coe_le_coe.mp this
    · simp [stage1Entry, hg, hpg] at hoie

lemma pointCandidates_one (fm : Nat → Option Feature) :
    pointCandidates ⟨KDB.build [((0 : ℚ), (0 : ℚ))], fm⟩ 0 0 = [0] := by
  unfold pointCandidates KDB.range
  rw [show (KDB.build [((0 : ℚ), (0 : ℚ))]).ids = [0] from rfl]
  simp only [List.filter_cons, List.filter_nil, decide_eq_true_eq]
  rw [if_pos]
  norm_num [coordAt, KDB.build, MAX_DISTANCE_TO_POINT_KM]

lemma geometryCandidates_one (fm : Nat → Option Feature) :
    geometryCandidates ⟨KDB.build [((0 : ℚ), (0 : ℚ))], fm⟩ 0 0 = [0] := by
  unfold geometryCandidates KDB.range
  rw [show (KDB.build [((0 : ℚ), (0 : ℚ))]).ids = [0] from rfl]
  simp only [List.filter_cons, List.filter_nil, decide_eq_true_eq]
  rw [if_pos]
  norm_num [coordAt, KDB.build, MAX_DISTANCE_TO_LINE_OR_EDGE_KM]

lemma pointCandidates_two (fm : Nat → Option Feature) :
    pointCandidates ⟨KDB.build [((0 : ℚ), (0 : ℚ)), (0, 0)], fm⟩ 0 0 = [0, 1] := by
  unfold pointCandidates KDB.range
  rw [show (KDB.build [((0 : ℚ), (0 : ℚ)), (0, 0)]).ids = [0, 1] from rfl]
  simp only [List.filter_cons, List.filter_nil, decide_eq_true_eq]
  rw [if_pos, if_pos]
  · norm_num [coordAt, KDB.build, MAX_DISTANCE_TO_POINT_KM]
  · norm_num [coordAt, KDB.build, MAX_DISTANCE_TO_POINT_KM]

lemma geometryCandidates_two (fm : Nat → Option Feature) :
    geometryCandidates ⟨KDB.build [((0 : ℚ), (0 : ℚ)), (0, 0)], fm⟩ 0 0 = [0, 1] := by
  unfold geometryCandidates KDB.range
  rw [show (KDB.build [((0 : ℚ), (0 : ℚ)), (0, 0)]).ids = [0, 1] from rfl]
  simp only [List.filter_cons, List.filter_nil, decide_eq_true_eq]
  rw [if_pos, if_pos]
  · norm_num [coordAt, KDB.build, MAX_DISTANCE_TO_LINE_OR_EDGE_KM]
  · norm_num [coordAt, KDB.build, MAX_DISTANCE_TO_LINE_OR_EDGE_KM]

/-- The labeled Point feature of the C4 witness. -/
def ptC : Feature := ⟨.point (0, 0), some "C", none⟩

/-- Feature map of the C4 witness: a single Point feature. -/
def fm4 : Nat → Option Feature := fun i => if i = 0 then some ptC else none

/-- Index state of the C4 witness. -/
def si4 : SpatialIndexState := ⟨KDB.build [((0 : ℚ), (0 : ℚ))], fm4⟩

/-- Turf oracle of the C4 witness: the point is 10 m away; nothing contains
the query. -/
def turf4 : Turf :=
  ⟨fun _ f => if f = ptC then some (1/100) else none,
   fun _ _ => some false, fun _ => ⊤, fun _ _ => none, fun _ _ => none⟩

/-- Witness for C4: a single candidate Point feature 10 m from the query (no
containing polygon); resolution returns its name. -/
theorem C4_nearest_point_priority_witness :
    ∃ oi g dg, oi ∈ pointCandidates si4 0 0 ∧ si4.featureMap oi = some g ∧
      isPointGeom g = true ∧ turf4.distance (0, 0) g = some dg ∧
      dg ≤ MAX_DISTANCE_TO_POINT_KM ∧
      checkPointInGeoJSON (readyDeps si4) turf4 0 0 = some (featureName g) ∧
      ∀ oj h e, oj ∈ pointCandidates si4 0 0 → si4.featureMap oj = some h →
        isPointGeom h = true → turf4.distance (0, 0) h = some e →
        e ≤ MAX_DISTANCE_TO_POINT_KM → dg ≤ e := by
  refine C4_nearest_point_priority si4 turf4 0 0 ?_ 0 ptC (1/100) ?_ ?_ ?_ ?_ ?_
  · intro oi hoi f hf hpoly
    simp [turf4]
  · rw [show pointCandidates si4 0 0 = [0] from pointCandidates_one fm4]
    simp
  · simp [si4, fm4]
  · simp [isPointGeom, ptC]
  · simp [turf4]
  · norm_num [MAX_DISTANCE_TO_POINT_KM]

/-- C1 (amended): containment outranks line proximity, but NOT point
proximity: whenever the point tier (stage 1) finds no match and some candidate
polygon with finite positive area contains the query point, resolution returns
the name of a containing candidate polygon — regardless of any LineString
candidates within the line threshold.  (The original claim fails because a
Point feature within `MAX_DISTANCE_TO_POINT_KM` preempts containment, see the
counterexample.) -/
theorem C1_containment_over_line (si : SpatialIndexState) (turf : Turf) (lat lng : ℚ)
    (hs1 : (stage1Fold si turf (lng, lat) (pointCandidates si lat lng)).2 = none)
    (oi0 : Nat) (f0 : Feature)
    (h0 : oi0 ∈ geometryCandidates si lat lng)
    (hf0 : si.featureMap oi0 = some f0)
    (hp0 : isPolyGeom f0 = true)
    (hpip0 : turf.booleanPointInPolygon (lng, lat) f0 = some true)
    (hfin : mapArea (turf.area f0) ≠ ⊤) :
    ∃ oi g, oi ∈ geometryCandidates si lat lng ∧ si.featureMap oi = some g ∧
      isPolyGeom g = true ∧ turf.booleanPointInPolygon (lng, lat) g = some true ∧
      checkPointInGeoJSON (readyDeps si) turf lat lng = some (featureName g) := by
  have hentry : polyEntryF turf (lng, lat) (si.featureMap oi0) =
      some (mapArea (turf.area f0), featureName f0) := by
    simp [polyEntryF, hf0, hp0, hpip0]
  have hmem : some (mapArea (turf.area f0), featureName f0) ∈
      (geometryCandidates si lat lng).map (fun oi => polyEntryF turf (lng, lat) (si.featureMap oi)) :=
    List.mem_map.mpr ⟨oi0, h0, hentry⟩
  obtain ⟨d, nm, hm, -, heq, -⟩ :=
    selMin_attained areaThr _ _ _ hmem trivial hfin
  obtain ⟨oi, hoi, hoie⟩ := List.mem_map.mp hm
  cases hg : si.featureMap oi with
  | none => simp [polyEntryF, hg] at hoie
  | some g =>
    by_cases hpg : isPolyGeom g = true
    · cases hpip : turf.booleanPointInPolygon (lng, lat) g with
      | none => simp [polyEntryF, hg, hpg, hpip] at hoie
      | some b =>
        cases b with
        | false => simp [polyEntryF, hg, hpg, hpip] at hoie
        | true =>
          simp only [polyEntryF, hg, hpg, hpip, if_true, Option.some_inj, Prod.mk.injEq] at hoie
          obtain ⟨-, hnmeq⟩ := hoie
          refine ⟨oi, g, hoi, hg, hpg, hpip, ?_⟩
          rw [checkPointInGeoJSON_ready, hs1]
          have hpoly := stage2Fold_poly si turf (lng, lat) (geometryCandidates si lat lng)
          rw [heq] at hpoly
          have hbest : (stage2Fold si turf (lng, lat) (geometryCandidates si lat lng)).bestContainedPolygonName = some nm :=
            congrArg Prod.snd hpoly
          rw [hbest, ← hnmeq]
    · simp [polyEntryF, hg, hpg] at hoie

/-- Point feature of the C1 counterexample, named P, at the query location. -/
def ptP1 : Feature := ⟨.point (0, 0), some "P", none⟩

/-- Containing polygon of the C1 counterexample, named A. -/
def polyA1 : Feature := ⟨.polygon [[(0, 0), (1, 0), (0, 1)]], some "A", none⟩

/-- Feature map of the C1 counterexample: the Point P and the polygon A. -/
def fm1 : Nat → Option Feature :=
  fun i => if i = 0 then some ptP1 else if i = 1 then some polyA1 else none

/-- Index state of the C1 counterexample: both candidates at the query point. -/
def si1 : SpatialIndexState := ⟨KDB.build [((0 : ℚ), (0 : ℚ)), (0, 0)], fm1⟩

/-- Turf oracle of the C1 counterexample: P is at distance 0, A contains the
query point and has area 5. -/
def turf1 : Turf :=
  ⟨fun _ f => if f = ptP1 then some 0 else none,
   fun _ f => if f = polyA1 then some true else some false,
   fun _ => ((5 : ℚ) : WithTop ℚ),
   fun _ _ => none, fun _ _ => none⟩

/-- C1 counterexample: the query point lies inside candidate polygon A
(booleanPointInPolygon gives true), yet a Point feature P within the point
threshold preempts it: resolution returns "P", not the containment match "A".
This refutes C1 as stated (containment does NOT outrank point proximity). -/
theorem C1_counterexample :
    turf1.booleanPointInPolygon (0, 0) polyA1 = some true ∧
      checkPointInGeoJSON (readyDeps si1) turf1 0 0 = some "P" ∧
      (some "P" : Option String) ≠ some "A" := by
  refine ⟨by simp [turf1], ?_, by simp⟩
  rw [checkPointInGeoJSON_ready]
  have hc : pointCandidates si1 0 0 = [0, 1] := pointCandidates_two fm1
  have hs1 : (stage1Fold si1 turf1 (0, 0) (pointCandidates si1 0 0)).2 = some "P" := by
    rw [hc]
    have h0 : stage1Step si1 turf1 (0, 0) (⊤, none) 0 = (((0 : ℚ) : WithTop ℚ), some "P") := by
      simp only [stage1Step, si1, fm1, if_pos rfl]
      simp [isPointGeom, ptP1, turf1, featureName, jsStringOr, MAX_DISTANCE_TO_POINT_KM]
      norm_num
    have h1 : stage1Step si1 turf1 (0, 0) (((0 : ℚ) : WithTop ℚ), some "P") 1 =
        (((0 : ℚ) : WithTop ℚ), some "P") := by
      simp only [stage1Step, si1, fm1]
      norm_num
      simp [isPointGeom, polyA1]
    rw [stage1Fold, List.foldl_cons, List.foldl_cons, List.foldl_nil, h0, h1]
  rw [hs1]

/-- LineString feature of the C1 witness, named L. -/
def lineL1 : Feature := ⟨.lineString [(0, 0), (1, 0)], some "L", none⟩

/-- Feature map of the C1 witness: containing polygon A first, line L second. -/
def fm1w : Nat → Option Feature :=
  fun i => if i = 0 then some polyA1 else if i = 1 then some lineL1 else none

/-- Index state of the C1 witness. -/
def si1w : SpatialIndexState := ⟨KDB.build [((0 : ℚ), (0 : ℚ)), (0, 0)], fm1w⟩

/-- Turf oracle of the C1 witness: no Point features anywhere, polygon A
contains the query (area 5), line L passes 100 m away — within the line
threshold. -/
def turf1w : Turf :=
  ⟨fun _ _ => none,
   fun _ f => if f = polyA1 then some true else some false,
   fun _ => ((5 : ℚ) : WithTop ℚ),
   fun _ _ => some (1/10), fun _ _ => none⟩

/-- Witness for C1 (amended): no point-tier match, polygon A contains the
query, line L is within the line threshold — resolution returns a containing
polygon's name. -/
theorem C1_containment_over_line_witness :
    ∃ oi g, oi ∈ geometryCandidates si1w 0 0 ∧ si1w.featureMap oi = some g ∧
      isPolyGeom g = true ∧ turf1w.booleanPointInPolygon (0, 0) g = some true ∧
      checkPointInGeoJSON (readyDeps si1w) turf1w 0 0 = some (featureName g) := by
  refine C1_containment_over_line si1w turf1w 0 0 ?_ 0 polyA1 ?_ ?_ ?_ ?_ ?_
  · have hpc : pointCandidates si1w 0 0 = [0, 1] := pointCandidates_two fm1w
    rw [hpc, stage1Fold, List.foldl_cons, List.foldl_cons, List.foldl_nil]
    have h0 : stage1Step si1w turf1w (0, 0) (⊤, none) 0 = (⊤, none) := by
      simp [stage1Step, si1w, fm1w, isPointGeom, polyA1]
    have h1 : stage1Step si1w turf1w (0, 0) (⊤, none) 1 = (⊤, none) := by
      simp [stage1Step, si1w, fm1w, isPointGeom, lineL1]
    rw [h0, h1]
  · have hgc : geometryCandidates si1w 0 0 = [0, 1] := geometryCandidates_two fm1w
    rw [hgc]; simp
  · simp [si1w, fm1w]
  · simp [isPolyGeom, polyA1]
  · simp [turf1w]
  · simp [turf1w, mapArea]

lemma polyEntryF_inv (turf : Turf) (q : GCoord) (of : Option Feature)
    (d : WithTop ℚ) (x : String) (h : polyEntryF turf q of = some (d, x)) :
    ∃ g, of = some g ∧ isPolyGeom g = true ∧ turf.booleanPointInPolygon q g = some true ∧
      d = mapArea (turf.area g) ∧ x = featureName g := by
  cases of with
  | none => simp [polyEntryF] at h
  | some g =>
    by_cases hp : isPolyGeom g = true
    · cases hpip : turf.booleanPointInPolygon q g with
      | none => simp [polyEntryF, hp, hpip] at h
      | some b =>
        cases b with
        | false => simp [polyEntryF, hp, hpip] at h
        | true =>
          simp only [polyEntryF, hp, hpip, if_true, Option.some_inj, Prod.mk.injEq] at h
          exact ⟨g, rfl, hp, hpip, h.1.symm, h.2.symm⟩
    · simp [polyEntryF, hp] at h

lemma lineEntryF_inv (turf : Turf) (q : GCoord) (of : Option Feature)
    (d : WithTop ℚ) (x : String) (h : lineEntryF turf q of = some (d, x)) :
    ∃ g, of = some g ∧ x = featureName g ∧
      ((∃ r e, isPolyGeom g = true ∧ exteriorRing g = some r ∧
          turf.pointToLineDistanceRing q r = some e ∧ d = (e : WithTop ℚ)) ∨
        (∃ e, isLineGeom g = true ∧
          turf.pointToLineDistance q g = some e ∧ d = (e : WithTop ℚ))) := by
  cases of with
  | none => simp [lineEntryF] at h
  | some g =>
    by_cases hp : isPolyGeom g = true
    · cases hr : exteriorRing g with
      | none => simp [lineEntryF, hp, hr] at h
      | some r =>
        cases he : turf.pointToLineDistanceRing q r with
        | none => simp [lineEntryF, hp, hr, he] at h
        | some e =>
          simp only [lineEntryF, hp, hr, he, if_true, Option.some_inj, Prod.mk.injEq] at h
          exact ⟨g, rfl, h.2.symm, Or.inl ⟨r, e, hp, hr, he, h.1.symm⟩⟩
    · by_cases hl : isLineGeom g = true
      · cases he : turf.pointToLineDistance q g with
        | none => simp [lineEntryF, hp, hl, he] at h
        | some e =>
          simp only [lineEntryF, hp, hl, he, if_true, if_false, Bool.false_eq_true,
            Option.some_inj, Prod.mk.injEq] at h
          exact ⟨g, rfl, h.2.symm, Or.inr ⟨e, hl, he, h.1.symm⟩⟩
      · simp [lineEntryF, hp, hl] at h

/-- C5 (amended): when several candidate polygons contain the query point, the
one with the smallest mapped area wins, where the mapped area replaces
non-finite or non-positive turf areas by Infinity; among polygons of equal
finite area, the first encountered in candidate order wins.  Polygons whose
mapped area is Infinity are never selected at all (see the counterexample: if
every containing polygon has non-finite area, the containment tier yields no
match, rather than the first-encountered polygon). -/
theorem C5_smallest_area_first (si : SpatialIndexState) (turf : Turf) (lat lng : ℚ)
    (hs1 : (stage1Fold si turf (lng, lat) (pointCandidates si lat lng)).2 = none)
    (l1 l2 : List Nat) (oi0 : Nat) (f0 : Feature)
    (hcands : geometryCandidates si lat lng = l1 ++ oi0 :: l2)
    (hf0 : si.featureMap oi0 = some f0)
    (hp0 : isPolyGeom f0 = true)
    (hpip0 : turf.booleanPointInPolygon (lng, lat) f0 = some true)
    (hfin : mapArea (turf.area f0) ≠ ⊤)
    (h1 : ∀ oj ∈ l1, ∀ g, si.featureMap oj = some g → isPolyGeom g = true →
      turf.booleanPointInPolygon (lng, lat) g = some true →
      mapArea (turf.area f0) < mapArea (turf.area g))
    (h2 : ∀ oj ∈ l2, ∀ g, si.featureMap oj = some g → isPolyGeom g = true →
      turf.booleanPointInPolygon (lng, lat) g = some true →
      mapArea (turf.area f0) ≤ mapArea (turf.area g)) :
    checkPointInGeoJSON (readyDeps si) turf lat lng = some (featureName f0) := by
  rw [checkPointInGeoJSON_ready, hs1]
  have hentry : polyEntryF turf (lng, lat) (si.featureMap oi0) =
      some (mapArea (turf.area f0), featureName f0) := by
    simp [polyEntryF, hf0, hp0, hpip0]
  have hsel : selMin areaThr ((geometryCandidates si lat lng).map
      (fun oi => polyEntryF turf (lng, lat) (si.featureMap oi))) =
      (mapArea (turf.area f0), some (featureName f0)) := by
    rw [hcands, List.map_append, List.map_cons, hentry]
    refine selMin_pivot areaThr _ _ _ _ trivial hfin ?_ ?_
    · intro d x hmem _
      obtain ⟨oj, hoj, hoje⟩ := List.mem_map.mp hmem
      obtain ⟨g, hg, hpg, hpip, hdeq, -⟩ := polyEntryF_inv _ _ _ _ _ hoje
      rw [hdeq]
      exact h1 oj hoj g hg hpg hpip
    · intro d x hmem _
      obtain ⟨oj, hoj, hoje⟩ := List.mem_map.mp hmem
      obtain ⟨g, hg, hpg, hpip, hdeq, -⟩ := polyEntryF_inv _ _ _ _ _ hoje
      rw [hdeq]
      exact h2 oj hoj g hg hpg hpip
  have hpoly := stage2Fold_poly si turf (lng, lat) (geometryCandidates si lat lng)
  rw [hsel] at hpoly
  have hbest : (stage2Fold si turf (lng, lat)
      (geometryCandidates si lat lng)).bestContainedPolygonName = some (featureName f0) :=
    congrArg Prod.snd hpoly
  rw [hbest]

/-- First containing polygon of the C5 counterexample, named A. -/
def polyA5 : Feature := ⟨.polygon [[(0, 0), (1, 0), (0, 1)]], some "A", none⟩

/-- Second containing polygon of the C5 counterexample, named B. -/
def polyB5 : Feature := ⟨.polygon [[(0, 0), (2, 0), (0, 2)]], some "B", none⟩

/-- Feature map of the C5 counterexample: polygons A then B. -/
def fm5 : Nat → Option Feature :=
  fun i => if i = 0 then some polyA5 else if i = 1 then some polyB5 else none

/-- Index state of the C5 counterexample. -/
def si5 : SpatialIndexState := ⟨KDB.build [((0 : ℚ), (0 : ℚ)), (0, 0)], fm5⟩

/-- Turf oracle of the C5 counterexample: both polygons contain the query and
both areas are non-finite (modelled as ⊤, the resolver's Infinity). -/
def turf5 : Turf :=
  ⟨fun _ _ => none, fun _ _ => some true, fun _ => ⊤, fun _ _ => none, fun _ _ => none⟩

/-- C5 counterexample: both containing polygons have equally non-finite area;
the claim says the first encountered (A) wins, but the resolver selects no
polygon at all (Infinity < Infinity is false) and returns null. -/
theorem C5_counterexample :
    turf5.booleanPointInPolygon (0, 0) polyA5 = some true ∧
      turf5.booleanPointInPolygon (0, 0) polyB5 = some true ∧
      turf5.area polyA5 = ⊤ ∧ turf5.area polyB5 = ⊤ ∧
      checkPointInGeoJSON (readyDeps si5) turf5 0 0 = none ∧
      (none : Option String) ≠ some (featureName polyA5) := by
  refine ⟨rfl, rfl, rfl, rfl, ?_, by simp⟩
  rw [checkPointInGeoJSON_ready]
  have hpc : pointCandidates si5 0 0 = [0, 1] := pointCandidates_two fm5
  have hgc : geometryCandidates si5 0 0 = [0, 1] := geometryCandidates_two fm5
  have hs1 : (stage1Fold si5 turf5 (0, 0) (pointCandidates si5 0 0)).2 = none := by
    rw [hpc, stage1Fold, List.foldl_cons, List.foldl_cons, List.foldl_nil]
    have h0 : stage1Step si5 turf5 (0, 0) (⊤, none) 0 = (⊤, none) := by
      simp [stage1Step, si5, fm5, isPointGeom, polyA5]
    have h1 : stage1Step si5 turf5 (0, 0) (⊤, none) 1 = (⊤, none) := by
      simp [stage1Step, si5, fm5, isPointGeom, polyB5]
    rw [h0, h1]
  rw [hs1, hgc]
  have hstep0 : stage2Step turf5 (0, 0) initStage2Acc (si5.featureMap 0) = initStage2Acc := by
    simp [stage2Step, si5, fm5, polyA5, turf5, isPolyGeom, mapArea, exteriorRing,
      initStage2Acc]
  have hstep1 : stage2Step turf5 (0, 0) initStage2Acc (si5.featureMap 1) = initStage2Acc := by
    simp [stage2Step, si5, fm5, polyB5, turf5, isPolyGeom, mapArea, exteriorRing,
      initStage2Acc]
  rw [stage2Fold, List.foldl_cons, List.foldl_cons, List.foldl_nil, hstep0, hstep1]
  rfl

/-- First containing polygon of the C5 witness, named A, area 5. -/
def polyA5w : Feature := ⟨.polygon [[(0, 0), (1, 0), (0, 1)]], some "A", none⟩

/-- Second containing polygon of the C5 witness, named B, also area 5. -/
def polyB5w : Feature := ⟨.polygon [[(0, 0), (2, 0), (0, 2)]], some "B", none⟩

/-- Feature map of the C5 witness. -/
def fm5w : Nat → Option Feature :=
  fun i => if i = 0 then some polyA5w else if i = 1 then some polyB5w else none

/-- Index state of the C5 witness. -/
def si5w : SpatialIndexState := ⟨KDB.build [((0 : ℚ), (0 : ℚ)), (0, 0)], fm5w⟩

/-- Turf oracle of the C5 witness: both polygons contain the query with the
same finite area 5. -/
def turf5w : Turf :=
  ⟨fun _ _ => none, fun _ _ => some true, fun _ => ((5 : ℚ) : WithTop ℚ),
   fun _ _ => none, fun _ _ => none⟩

/-- Witness for C5 (amended): two containing polygons of equal finite area 5
— the first encountered (A) wins. -/
theorem C5_smallest_area_first_witness :
    checkPointInGeoJSON (readyDeps si5w) turf5w 0 0 = some (featureName polyA5w) := by
  refine C5_smallest_area_first si5w turf5w 0 0 ?_ [] [1] 0 polyA5w ?_ ?_ ?_ ?_ ?_ ?_ ?_
  · have hpc : pointCandidates si5w 0 0 = [0, 1] := pointCandidates_two fm5w
    rw [hpc, stage1Fold, List.foldl_cons, List.foldl_cons, List.foldl_nil]
    have h0 : stage1Step si5w turf5w (0, 0) (⊤, none) 0 = (⊤, none) := by
      simp [stage1Step, si5w, fm5w, isPointGeom, polyA5w]
    have h1 : stage1Step si5w turf5w (0, 0) (⊤, none) 1 = (⊤, none) := by
      simp [stage1Step, si5w, fm5w, isPointGeom, polyB5w]
    rw [h0, h1]
  · exact geometryCandidates_two fm5w
  · simp [si5w, fm5w]
  · simp [isPolyGeom, polyA5w]
  · simp [turf5w]
  · simp [turf5w, mapArea]
  · intro oj hoj
    simp at hoj
  · intro oj hoj g hg hpg hpip
    exact le_refl _

/-- C9 (amended): a resolution call made before the spatial index is built
does NOT fail fast with an error; it logs and returns null — exactly the value
a normal no-match resolution returns. -/
theorem C9_unbuilt_returns_null (deps : ResolverDeps) (turf : Turf) (lat lng : ℚ)
    (h : deps.spatialIndex = none) :
    checkPointInGeoJSON deps turf lat lng = none := by
  unfold checkPointInGeoJSON
  rw [if_pos]
  exact Or.inr (Or.inr (Or.inl (by rw [h]; rfl)))

/-- Inert Turf oracle for the C9 counterexample. -/
def turf9 : Turf :=
  ⟨fun _ _ => none, fun _ _ => none, fun _ => ⊤, fun _ _ => none, fun _ _ => none⟩

/-- A fully loaded state with an empty dataset: index over zero points. -/
def emptySi : SpatialIndexState := ⟨KDB.build [], fun _ => none⟩

/-- C9 counterexample: calling the resolver before the index is built returns
null — the very same value as a normal no-match resolution on a loaded (empty)
dataset — rather than failing fast with a descriptive error; the two calls are
indistinguishable to the caller. -/
theorem C9_counterexample :
    checkPointInGeoJSON ⟨true, true, none, true, true, true⟩ turf9 0 0 = none ∧
      checkPointInGeoJSON (readyDeps emptySi) turf9 0 0 = none := by
  constructor
  · unfold checkPointInGeoJSON
    rw [if_pos]
    exact Or.inr (Or.inr (Or.inl rfl))
  · rw [checkPointInGeoJSON_ready]
    have hpc : pointCandidates emptySi 0 0 = [] := rfl
    have hgc : geometryCandidates emptySi 0 0 = [] := rfl
    rw [hpc, hgc]
    rfl

/-- Witness for C9 (amended): the unbuilt-index call at another query point
also returns null. -/
theorem C9_unbuilt_returns_null_witness :
    checkPointInGeoJSON ⟨true, true, none, true, true, true⟩ turf9 5 7 = none :=
  C9_unbuilt_returns_null ⟨true, true, none, true, true, true⟩ turf9 5 7 rfl

/-- C10: in the line-proximity tier a polygon that does not contain the query
point still competes through its exterior ring: when the point tier is empty,
no containing polygon has finite area, and the distance from the query to the
exterior ring of candidate polygon `f0` is within the line threshold and
strictly below every other line/edge candidate distance, the polygon's name is
returned as the nearest line/edge match. -/
theorem C10_polygon_edge_in_line_tier (si : SpatialIndexState) (turf : Turf) (lat lng : ℚ)
    (hs1 : (stage1Fold si turf (lng, lat) (pointCandidates si lat lng)).2 = none)
    (hnopoly : ∀ oi ∈ geometryCandidates si lat lng, ∀ g, si.featureMap oi = some g →
      isPolyGeom g = true → turf.booleanPointInPolygon (lng, lat) g = some true →
      mapArea (turf.area g) = ⊤)
    (l1 l2 : List Nat) (oi0 : Nat) (f0 : Feature) (ring0 : List GCoord) (d0 : ℚ)
    (hcands : geometryCandidates si lat lng = l1 ++ oi0 :: l2)
    (hf0 : si.featureMap oi0 = some f0)
    (hp0 : isPolyGeom f0 = true)
    (hring0 : exteriorRing f0 = some ring0)
    (hd0 : turf.pointToLineDistanceRing (lng, lat) ring0 = some d0)
    (hthr0 : d0 ≤ MAX_DISTANCE_TO_LINE_OR_EDGE_KM)
    (h1 : ∀ oj ∈ l1, ∀ g, si.featureMap oj = some g →
      (∀ r e, isPolyGeom g = true → exteriorRing g = some r →
        turf.pointToLineDistanceRing (lng, lat) r = some e → d0 < e) ∧
      (∀ e, isLineGeom g = true → turf.pointToLineDistance (lng, lat) g = some e → d0 < e))
    (h2 : ∀ oj ∈ l2, ∀ g, si.featureMap oj = some g →
      (∀ r e, isPolyGeom g = true → exteriorRing g = some r →
        turf.pointToLineDistanceRing (lng, lat) r = some e → d0 < e) ∧
      (∀ e, isLineGeom g = true → turf.pointToLineDistance (lng, lat) g = some e → d0 < e)) :
    checkPointInGeoJSON (readyDeps si) turf lat lng = some (featureName f0) := by
  rw [checkPointInGeoJSON_ready, hs1]
  have hselp : selMin areaThr ((geometryCandidates si lat lng).map
      (fun oi => polyEntryF turf (lng, lat) (si.featureMap oi))) = (⊤, none) := by
    unfold selMin
    refine selFold_no_update areaThr _ _ ?_
    intro d nm hmem _
    obtain ⟨oj, hoj, hoje⟩ := List.mem_map.mp hmem
    obtain ⟨g, hg, hpg, hpip, hdeq, -⟩ := polyEntryF_inv _ _ _ _ _ hoje
    rw [hdeq, hnopoly oj hoj g hg hpg hpip]
    exact lt_irrefl ⊤
  have hpoly := stage2Fold_poly si turf (lng, lat) (geometryCandidates si lat lng)
  rw [hselp] at hpoly
  have hbestnone : (stage2Fold si turf (lng, lat)
      (geometryCandidates si lat lng)).bestContainedPolygonName = none :=
    congrArg Prod.snd hpoly
  rw [hbestnone]
  have hentry : lineEntryF turf (lng, lat) (si.featureMap oi0) =
      some ((d0 : WithTop ℚ), featureName f0) := by
    simp [lineEntryF, hf0, hp0, hring0, hd0]
  have hsell : selMin lineThr ((geometryCandidates si lat lng).map
      (fun oi => lineEntryF turf (lng, lat) (si.featureMap oi))) =
      ((d0 : WithTop ℚ), some (featureName f0)) := by
    rw [hcands, List.map_append, List.map_cons, hentry]
    refine selMin_pivot lineThr _ _ _ _ (WithTop.coe_le_coe.mpr hthr0) WithTop.coe_ne_top ?_ ?_
    · intro d x hmem _
      obtain ⟨oj, hoj, hoje⟩ := List.mem_map.mp hmem
      obtain ⟨g, hg, -, hcase⟩ := lineEntryF_inv _ _ _ _ _ hoje
      rcases hcase with ⟨r, e, hpg, hr, he, hdeq⟩ | ⟨e, hlg, he, hdeq⟩
      · rw [hdeq]
        exact WithTop.coe_lt_coe.mpr ((h1 oj hoj g hg).1 r e hpg hr he)
      · rw [hdeq]
        exact WithTop.coe_lt_coe.mpr ((h1 oj hoj g hg).2 e hlg he)
    · intro d x hmem _
      obtain ⟨oj, hoj, hoje⟩ := List.mem_map.mp hmem
      obtain ⟨g, hg, -, hcase⟩ := lineEntryF_inv _ _ _ _ _ hoje
      rcases hcase with ⟨r, e, hpg, hr, he, hdeq⟩ | ⟨e, hlg, he, hdeq⟩
      · rw [hdeq]
        exact le_of_lt (WithTop.coe_lt_coe.mpr ((h2 oj hoj g hg).1 r e hpg hr he))
      · rw [hdeq]
        exact le_of_lt (WithTop.coe_lt_coe.mpr ((h2 oj hoj g hg).2 e hlg he))
  have hline := stage2Fold_line si turf (lng, lat) (geometryCandidates si lat lng)
  rw [hsell] at hline
  exact congrArg Prod.snd hline

/-- Non-containing polygon of the C10 witness, named A. -/
def polyA10 : Feature := ⟨.polygon [[(0, 0), (1, 0), (0, 1)]], some "A", none⟩

/-- LineString of the C10 witness, named L. -/
def lineL10 : Feature := ⟨.lineString [(0, 0), (1, 0)], some "L", none⟩

/-- Feature map of the C10 witness: polygon A then line L. -/
def fm10 : Nat → Option Feature :=
  fun i => if i = 0 then some polyA10 else if i = 1 then some lineL10 else none

/-- Index state of the C10 witness. -/
def si10 : SpatialIndexState := ⟨KDB.build [((0 : ℚ), (0 : ℚ)), (0, 0)], fm10⟩

/-- Turf oracle of the C10 witness: nothing contains the query; A's exterior
ring is 0.5 km away, L is 0.75 km away — both within the 1 km threshold. -/
def turf10 : Turf :=
  ⟨fun _ _ => none, fun _ _ => some false, fun _ => ⊤,
   fun _ _ => some (3/4), fun _ _ => some (1/2)⟩

/-- Witness for C10: the polygon's exterior ring (0.5 km) beats the line
(0.75 km) in the line tier; resolution returns the polygon's name A. -/
theorem C10_polygon_edge_in_line_tier_witness :
    checkPointInGeoJSON (readyDeps si10) turf10 0 0 = some (featureName polyA10) := by
  refine C10_polygon_edge_in_line_tier si10 turf10 0 0 ?_ ?_ [] [1] 0 polyA10
    [(0, 0), (1, 0), (0, 1)] (1/2) ?_ ?_ ?_ ?_ ?_ ?_ ?_ ?_
  · have hpc : pointCandidates si10 0 0 = [0, 1] := pointCandidates_two fm10
    rw [hpc, stage1Fold, List.foldl_cons, List.foldl_cons, List.foldl_nil]
    have h0 : stage1Step si10 turf10 (0, 0) (⊤, none) 0 = (⊤, none) := by
      simp [stage1Step, si10, fm10, isPointGeom, polyA10]
    have h1 : stage1Step si10 turf10 (0, 0) (⊤, none) 1 = (⊤, none) := by
      simp [stage1Step, si10, fm10, isPointGeom, lineL10]
    rw [h0, h1]
  · intro oi hoi g hg hpg hpip
    simp [turf10] at hpip
  · exact geometryCandidates_two fm10
  · simp [si10, fm10]
  · simp [isPolyGeom, polyA10]
  · simp [exteriorRing, polyA10]
  · simp [turf10]
  · norm_num [MAX_DISTANCE_TO_LINE_OR_EDGE_KM]
  · intro oj hoj
    simp at hoj
  · intro oj hoj g hg
    constructor
    · intro r e hpg hr he
      simp only [List.mem_singleton] at hoj
      subst hoj
      have hg2 : some lineL10 = some g := hg
      obtain rfl := (Option.some_inj.mp hg2).symm
      simp [isPolyGeom, lineL10] at hpg
    · intro e hlg he
      simp only [List.mem_singleton] at hoj
      subst hoj
      have hg2 : some lineL10 = some g := hg
      obtain rfl := (Option.some_inj.mp hg2).symm
      have he2 : some (3/4 : ℚ) = some e := he
      obtain rfl := (Option.some_inj.mp he2).symm
      norm_num

/-
Embedding of the haversine distance (src/src/TeraaMap.jsx lines 64-79) over ℝ,
used to settle the numerical claim about the resolver's search rectangle
(src/src/MyGeoJsonMap.jsx lines 717-724 and 757-762).  Coordinates here are
(lat, lon) pairs, as consumed by calculateDistance.
-/

/-- `toRad` of the source: degrees to radians. -/
noncomputable def toRad (v : ℝ) : ℝ := v * Real.pi / 180

/-- JS Math.atan2.  Only the `0 < x` branch is exercised by the proofs below. -/
noncomputable def atan2 (y x : ℝ) : ℝ :=
  if 0 < x then Real.arctan (y / x)
  else if x < 0 then
    (if 0 ≤ y then Real.arctan (y / x) + Real.pi else Real.arctan (y / x) - Real.pi)
  else if 0 < y then Real.pi / 2
  else if y < 0 then -(Real.pi / 2)
  else 0

/-- `calculateDistance(coord1, coord2)` (TeraaMap.jsx lines 64-79): the
haversine great-circle distance in km, Earth radius 6371 km. -/
noncomputable def calculateDistance (c1 c2 : ℝ × ℝ) : ℝ :=
  let lat1 := c1.1
  let lon1 := c1.2
  let lat2 := c2.1
  let lon2 := c2.2
  let R : ℝ := 6371
  let dLat := toRad (lat2 - lat1)
  let dLon := toRad (lon2 - lon1)
  let a := Real.sin (dLat / 2) * Real.sin (dLat / 2) +
    Real.cos (toRad lat1) * Real.cos (toRad lat2) *
      Real.sin (dLon / 2) * Real.sin (dLon / 2)
  let c := 2 * atan2 (Real.sqrt a) (Real.sqrt (1 - a))
  R * c

/-- Membership in the resolver's search rectangle around query (lat, lng) for
threshold dKm: the closed square of half-width dKm / 111.32 degrees
(MyGeoJsonMap.jsx lines 717-724 / 757-762, with the closed comparisons of
`range`, lines 485). -/
def inSearchRect (lat lng dKm lat2 lng2 : ℝ) : Prop :=
  lng - dKm / 111.32 ≤ lng2 ∧ lng2 ≤ lng + dKm / 111.32 ∧
    lat - dKm / 111.32 ≤ lat2 ∧ lat2 ≤ lat + dKm / 111.32

/-- On a meridian (equal longitudes) the haversine formula reduces to arc
length: radius times the latitude difference in radians. -/
lemma calculateDistance_same_lon (lat1 lat2 lon : ℝ) (h0 : lat1 ≤ lat2)
    (h1 : lat2 - lat1 < 180) :
    calculateDistance (lat1, lon) (lat2, lon) =
      6371 * ((lat2 - lat1) * Real.pi / 180) := by
  have hπ := Real.pi_pos
  have hΔ0 : 0 ≤ lat2 - lat1 := by linarith
  set θ := (lat2 - lat1) * Real.pi / 360 with hθ
  have hθ0 : 0 ≤ θ := by
    rw [hθ]
    have hm := mul_nonneg hΔ0 hπ.le
    linarith
  have hθlt : θ < Real.pi / 2 := by
    have hm : (lat2 - lat1) * Real.pi < 180 * Real.pi := mul_lt_mul_of_pos_right h1 hπ
    rw [hθ]
    linarith
  simp only [calculateDistance, toRad]
  have e2 : (lon - lon) * Real.pi / 180 / 2 = 0 := by
    rw [sub_self]
    norm_num
  rw [e2, Real.sin_zero, mul_zero, add_zero]
  have e1 : (lat2 - lat1) * Real.pi / 180 / 2 = θ := by
    rw [hθ]
    ring
  rw [e1]
  have hsθ : 0 ≤ Real.sin θ := Real.sin_nonneg_of_nonneg_of_le_pi hθ0 (by linarith)
  have hcθ : 0 < Real.cos θ :=
    Real.cos_pos_of_mem_Ioo (Set.mem_Ioo.mpr ⟨by linarith, hθlt⟩)
  rw [Real.sqrt_mul_self hsθ]
  have h1s : 1 - Real.sin θ * Real.sin θ = Real.cos θ * Real.cos θ := by
    have hsc := Real.sin_sq_add_cos_sq θ
    nlinarith [hsc]
  rw [h1s, Real.sqrt_mul_self hcθ.le]
  have hat : atan2 (Real.sin θ) (Real.cos θ) = θ := by
    unfold atan2
    rw [if_pos hcθ, ← Real.tan_eq_sin_div_cos]
    exact Real.arctan_tan (by linarith) hθlt
  rw [hat, hθ]
  ring

/-- C3 counterexample: the location at latitude 0.0089928 degrees due north of
the query (0, 0) lies within haversine distance 1 km of it (the true distance
is 6371 * 0.0089928 * pi / 180, just under 1 km), yet it is OUTSIDE the search
rectangle for `maxDistanceKm = 1` (its latitude exceeds 1/111.32 = 0.0089831
degrees).  The fixed degrees-per-km conversion therefore UNDER-covers the true
1 km disc, refuting C3 as stated. -/
theorem C3_counterexample :
    calculateDistance (0, 0) (11241/1250000, 0) ≤ 1 ∧
      ¬ inSearchRect 0 0 1 (11241/1250000) 0 := by
  constructor
  · rw [show ((11241 : ℝ)/1250000, (0 : ℝ)) = ((11241/1250000 : ℝ), (0 : ℝ)) from rfl]
    rw [calculateDistance_same_lon 0 (11241/1250000) 0 (by norm_num) (by norm_num)]
    have hπ := Real.pi_lt_d6
    have hπ0 := Real.pi_pos
    nlinarith
  · unfold inSearchRect
    intro h
    obtain ⟨-, -, -, h4⟩ := h
    norm_num at h4

/-- C3 (amended): the search rectangle does not over-cover the haversine disc;
it slightly UNDER-covers it.  For a location due north or south of the query
(equal longitudes, latitude gap below 180 degrees), membership in the search
rectangle is equivalent to the haversine distance being at most
d * (6371 * pi / 180) / 111.32 — and 6371 * pi / 180 (about 111.195, the true
km per degree of latitude) is strictly below the 111.32 the resolver divides
by, so the guaranteed radius is strictly smaller than d. -/
theorem C3_rect_under_covers (lat1 lat2 lon d : ℝ)
    (hd : 0 < d) (h0 : lat1 ≤ lat2) (h1 : lat2 - lat1 < 180) :
    (calculateDistance (lat1, lon) (lat2, lon) ≤ d * (6371 * Real.pi / 180) / 111.32 ↔
      inSearchRect lat1 lon d lat2 lon) ∧ 6371 * Real.pi / 180 < 111.32 := by
  have hπ := Real.pi_pos
  constructor
  · rw [calculateDistance_same_lon lat1 lat2 lon h0 h1]
    have hdec : (111.32 : ℝ) = 2783/25 := by norm_num
    rw [hdec]
    unfold inSearchRect
    rw [hdec]
    have hdpos : 0 ≤ d / (2783/25) := by positivity
    constructor
    · intro h
      have key : lat2 - lat1 ≤ d / (2783/25) := by
        by_contra hc
        push_neg at hc
        nlinarith [mul_pos (sub_pos.mpr hc) hπ]
      exact ⟨by linarith, by linarith, by linarith, by linarith⟩
    · intro h
      obtain ⟨-, -, -, h4⟩ := h
      have key : lat2 - lat1 ≤ d / (2783/25) := by linarith
      nlinarith [mul_nonneg (sub_nonneg.mpr key) hπ.le]
  · have hπlt := Real.pi_lt_d6
    nlinarith

/-- Witness for C3 (amended): at query (0, 5) with d = 1 km, the equivalence
holds for the location at latitude 0.008 degrees. -/
theorem C3_rect_under_covers_witness :
    (0 : ℝ) < 1 ∧
      ((calculateDistance (0, 5) (1/125, 5) ≤ 1 * (6371 * Real.pi / 180) / 111.32 ↔
        inSearchRect 0 5 1 (1/125) 5) ∧ 6371 * Real.pi / 180 < 111.32) :=
  ⟨by norm_num,
   C3_rect_under_covers 0 (1/125) 5 1 (by norm_num) (by norm_num) (by norm_num)⟩

/-- C6: `closestPointOnSegment(p, a, b)` returns `a` when `a == b`; otherwise,
with `t` the planar projection parameter of `p` onto the segment `a→b`, it
returns `a` when `t < 0`, `b` when `t > 1`, and the interpolated point
`a + t*(b - a)` when `0 ≤ t ≤ 1`; in particular, with coordinate pairs read as
(lat, lng), a=(0,0), b=(10,0) gives (0,0) for p=(-5,0), (10,0) for p=(15,0),
and (5,0) for p=(5,2). -/
theorem C6_closestPointOnSegment_spec (p a b : LatLng) :
    (a = b → closestPointOnSegment p a b = a) ∧
    (a ≠ b →
      (projParam p a b < 0 → closestPointOnSegment p a b = a) ∧
      (1 < projParam p a b → closestPointOnSegment p a b = b) ∧
      (0 ≤ projParam p a b → projParam p a b ≤ 1 →
        closestPointOnSegment p a b =
          ⟨a.lat + projParam p a b * (b.lat - a.lat),
           a.lng + projParam p a b * (b.lng - a.lng)⟩)) ∧
    closestPointOnSegment ⟨-5, 0⟩ ⟨0, 0⟩ ⟨10, 0⟩ = ⟨0, 0⟩ ∧
    closestPointOnSegment ⟨15, 0⟩ ⟨0, 0⟩ ⟨10, 0⟩ = ⟨10, 0⟩ ∧
    closestPointOnSegment ⟨5, 2⟩ ⟨0, 0⟩ ⟨10, 0⟩ = ⟨5, 0⟩ := by
  refine ⟨?_, ?_, ?_, ?_, ?_⟩
  · intro h; subst h
    simp [closestPointOnSegment]
  · intro hab
    have hL : (b.lng - a.lng) * (b.lng - a.lng) + (b.lat - a.lat) * (b.lat - a.lat) ≠ 0 := by
      intro h0
      exact hab ((lengthSquared_eq_zero_iff a b).mp h0).symm
    have hproj : ((p.lng - a.lng) * (b.lng - a.lng) + (p.lat - a.lat) * (b.lat - a.lat)) /
        ((b.lng - a.lng) * (b.lng - a.lng) + (b.lat - a.lat) * (b.lat - a.lat)) =
        projParam p a b := rfl
    refine ⟨?_, ?_, ?_⟩
    · intro ht
      simp only [closestPointOnSegment]
      rw [if_neg hL, hproj, if_pos ht]
    · intro ht
      simp only [closestPointOnSegment]
      rw [if_neg hL, hproj, if_neg (not_lt.mpr (le_trans zero_le_one (le_of_lt ht))), if_pos ht]
    · intro ht0 ht1
      simp only [closestPointOnSegment]
      rw [if_neg hL, hproj, if_neg (not_lt.mpr ht0), if_neg (not_lt.mpr ht1)]
  · exact of_decide_eq_true (by with_unfolding_all rfl)
  · exact of_decide_eq_true (by with_unfolding_all rfl)
  · exact of_decide_eq_true (by with_unfolding_all rfl)

/-- Witness for C6: applying the general clause at p=(99,0), a=(0,0), b=(10,0),
where the projection parameter exceeds 1, yields segment end b. -/
theorem C6_closestPointOnSegment_spec_witness :
    (⟨0, 0⟩ : LatLng) ≠ ⟨10, 0⟩ ∧ 1 < projParam ⟨99, 0⟩ ⟨0, 0⟩ ⟨10, 0⟩ ∧
      closestPointOnSegment ⟨99, 0⟩ ⟨0, 0⟩ ⟨10, 0⟩ = ⟨10, 0⟩ := by
  refine ⟨?hne, ?ht, ?_⟩
  case hne => exact of_decide_eq_true (by with_unfolding_all rfl)
  case ht => exact of_decide_eq_true (by with_unfolding_all rfl)
  exact ((C6_closestPointOnSegment_spec ⟨99, 0⟩ ⟨0, 0⟩ ⟨10, 0⟩).2.1
    (of_decide_eq_true (by with_unfolding_all rfl))).2.1
    (of_decide_eq_true (by with_unfolding_all rfl))

end MapV2
